import Mathlib

/-!
# Tracer bootstrap and request middleware of the REST package

Shallow embedding of `tracing.go`, `datadog-tracer.go`, `jaeger-tracer.go`,
`noop-tracer.go` and the request middleware of `rest.go`, followed by the properties of
the tracer configuration, the sampler construction, the backend dispatch and the
middleware.

Conventions of the embedding:

* a Go `error` is an `Option String` (`none` is `nil`, `some msg` carries `Error()`);
* the process environment read by `os.LookupEnv` is a function from variable
  names to optional values (`none` is an unset variable);
* a Go `map[string]string` is an association list read through `GoMap.index`;
* functions that return `(value, error)` return a pair, both components
  being meaningful exactly as in Go.
-/

set_option autoImplicit false

namespace Rest

/-! ## Go runtime values -/

/-- Go error value: `none` is the nil error, `some msg` an error whose message is `msg`. -/
abbrev GoError := Option String

/-- Process environment: the value of each variable, `none` when the variable is unset. -/
abbrev Env := String → Option String

/-- Environment given by a list of `(name, value)` bindings; every other variable is unset. -/
def Env.ofList (bs : List (String × String)) : Env :=
  fun k => bs.lookup k

/-- Go `map[string]string`. -/
abbrev GoMap := List (String × String)

/-- Map read `m[k]`: the zero value (empty string) when the key is missing. -/
def GoMap.index (m : GoMap) (k : String) : String :=
  (m.lookup k).getD ""

/-- Map write `m[k] = v`. -/
def GoMap.set (m : GoMap) (k v : String) : GoMap :=
  (k, v) :: m.filter (fun p => p.1 != k)

/-- Whether the map holds the key. -/
def GoMap.hasKey (m : GoMap) (k : String) : Bool :=
  (m.lookup k).isSome

/-- Go `strings.Contains(s, sub)` as a proposition on the character sequences. -/
def strContains (s sub : String) : Prop :=
  sub.data <:+: s.data

namespace os

/-- Lookup of an environment variable: the value and whether the variable is set. -/
def LookupEnv (env : Env) (key : String) : String × Bool :=
  match env key with
  | some v => (v, true)
  | none => ("", false)

end os

/-! ## Go float64, math.Min, math.Max -/

/-- Value of a Go `float64`: not-a-number, the two infinities, or a finite value carried
as the exact rational it denotes. The sign of zero is not tracked. -/
inductive Float64 where
  | nan
  | negInf
  | posInf
  | fin (q : ℚ)
deriving DecidableEq

namespace Float64

/-- IEEE comparison `x < y` (false whenever an operand is NaN). -/
def lt : Float64 → Float64 → Bool
  | nan, _ => false
  | _, nan => false
  | negInf, negInf => false
  | negInf, _ => true
  | _, negInf => false
  | posInf, _ => false
  | fin _, posInf => true
  | fin a, fin b => decide (a < b)

/-- The literal `0.0`. -/
def zero : Float64 := fin 0

/-- The literal `1.0`. -/
def one : Float64 := fin 1

/-- Membership in the closed interval `[0.0, 1.0]`. -/
def inUnitInterval : Float64 → Prop
  | fin q => 0 ≤ q ∧ q ≤ 1
  | _ => False

instance : DecidablePred inUnitInterval := fun x =>
  match x with
  | fin q => inferInstanceAs (Decidable (0 ≤ q ∧ q ≤ 1))
  | nan => isFalse (fun h => h)
  | negInf => isFalse (fun h => h)
  | posInf => isFalse (fun h => h)

end Float64

namespace math

/-- Go `math.Min`: `-Inf` if either operand is `-Inf`, else NaN if either is NaN,
else `x` when `x < y` and `y` otherwise. -/
def Min (x y : Float64) : Float64 :=
  if x = Float64.negInf ∨ y = Float64.negInf then Float64.negInf
  else if x = Float64.nan ∨ y = Float64.nan then Float64.nan
  else if x.lt y then x
  else y

/-- Go `math.Max`: `+Inf` if either operand is `+Inf`, else NaN if either is NaN,
else `x` when `x > y` and `y` otherwise. -/
def Max (x y : Float64) : Float64 :=
  if x = Float64.posInf ∨ y = Float64.posInf then Float64.posInf
  else if x = Float64.nan ∨ y = Float64.nan then Float64.nan
  else if y.lt x then x
  else y

end math

/-! ## The logging package -/

/-- Value of a log field (`interface{}` in `logging.Fields`): a string, an integer or
a float. -/
inductive FieldValue where
  | str (s : String)
  | int (n : Int)
  | float (f : Float64)
deriving DecidableEq

/-- Logger capability of the logging package, identified by the fields it carries
(in the order they were added). -/
structure Logger where
  fields : List (String × FieldValue)
deriving DecidableEq

/-- Method `Logger.AddFields(fields)`: a logger carrying the further fields. -/
def Logger.AddFields (l : Logger) (fs : List (String × FieldValue)) : Logger :=
  { fields := l.fields ++ fs }

/-- The value a logger carries for a field name: the one added last, `none` when the
logger has no such field. -/
def Logger.field (l : Logger) (k : String) : Option FieldValue :=
  l.fields.reverse.lookup k

/-! ## strconv.ParseFloat -/

namespace strconv

/-- Value of a run of decimal digits. -/
def digitsValue (ds : List Char) : Nat :=
  ds.foldl (fun n c => 10 * n + (c.toNat - '0'.toNat)) 0

/-- Split an optional leading sign off: whether it was `-`, and the remainder. -/
def readSign : List Char → Bool × List Char
  | '+' :: r => (false, r)
  | '-' :: r => (true, r)
  | r => (false, r)

/-- The names `inf`, `infinity` (optionally signed) and `nan` (unsigned), in any letter case. -/
def special (cs : List Char) : Option Float64 :=
  let l := cs.map Char.toLower
  if l = "nan".data then some Float64.nan
  else
    match readSign l with
    | (neg, r) =>
      if r = "inf".data ∨ r = "infinity".data then
        some (if neg then Float64.negInf else Float64.posInf)
      else none

/-- Decimal literal `[sign] digits [. digits] [(e|E) [sign] digits]` with at least one
mantissa digit: the exact rational it denotes, `none` when the text is not of that form. -/
def readDecimal (cs : List Char) : Option ℚ :=
  match readSign cs with
  | (neg, r) =>
    match r.span Char.isDigit with
    | (ip, r) =>
      let fr : List Char × List Char :=
        match r with
        | '.' :: r1 => r1.span Char.isDigit
        | _ => ([], r)
      match fr with
      | (fp, r) =>
        if ip.isEmpty && fp.isEmpty then none
        else
          let mant : ℚ := (digitsValue (ip ++ fp) : ℚ) / (10 : ℚ) ^ fp.length
          let sgn : ℚ := if neg then -1 else 1
          match r with
          | [] => some (sgn * mant)
          | c :: r1 =>
            if c = 'e' ∨ c = 'E' then
              match readSign r1 with
              | (eneg, r2) =>
                match r2.span Char.isDigit with
                | (ed, rest) =>
                  if ed.isEmpty || !rest.isEmpty then none
                  else if eneg then some (sgn * mant / (10 : ℚ) ^ digitsValue ed)
                  else some (sgn * mant * (10 : ℚ) ^ digitsValue ed)
            else none

/-- Magnitude from which a decimal value rounds to infinity in binary64:
`2^1024 - 2^970`, half a unit in the last place above the largest finite value. -/
def overflowBound : ℚ := (2 : ℚ) ^ 1024 - (2 : ℚ) ^ 970

/-- Model of Go `strconv.ParseFloat(s, 64)` on the special names and on plain decimal
literals. Text outside these two forms is a syntax error with value 0 (the hexadecimal
and digit-separator forms of the Go grammar are not part of the modelled grammar); a
decimal value of magnitude at least `overflowBound` is a range error with value ±Inf.
A finite result is the exact value of the literal: rounding to the nearest binary64 is
left out, which changes nothing for literals that are binary fractions such as `0.5`. -/
def ParseFloat (s : String) : Float64 × GoError :=
  match special s.data with
  | some f => (f, none)
  | none =>
    match readDecimal s.data with
    | none => (Float64.fin 0, some "invalid syntax")
    | some q =>
      if overflowBound ≤ q then (Float64.posInf, some "value out of range")
      else if q ≤ -overflowBound then (Float64.negInf, some "value out of range")
      else (Float64.fin q, none)

end strconv

/-! ## Backend sampler types -/

namespace dtracer

/-- Datadog rate sampler, determined by its sampling rate. -/
structure RateSampler where
  rate : Float64
deriving DecidableEq

/-- Constructor `dtracer.NewRateSampler(rate)`. -/
def NewRateSampler (rate : Float64) : RateSampler :=
  { rate := rate }

end dtracer

namespace jaeger

/-- Jaeger samplers built by this package: the constant sampler with its decision, the
probabilistic sampler with its sampling rate, and the nil probabilistic sampler that
`NewProbabilisticSampler` hands back together with an error. -/
inductive Sampler where
  | const (decision : Bool)
  | probabilistic (samplingRate : Float64)
  | nilProbabilistic
deriving DecidableEq

/-- Constructor `jaeger.NewConstSampler(sample)`. -/
def NewConstSampler (sample : Bool) : Sampler :=
  Sampler.const sample

/-- Constructor `jaeger.NewProbabilisticSampler(samplingRate)`: an error when the rate
compares below 0.0 or above 1.0. -/
def NewProbabilisticSampler (samplingRate : Float64) : Sampler × GoError :=
  if samplingRate.lt Float64.zero ∨ Float64.one.lt samplingRate then
    (Sampler.nilProbabilistic, some "Sampling Rate must be between 0.0 and 1.0")
  else
    (Sampler.probabilistic samplingRate, none)

/-- Sampling rate a sampler stands for: 1.0 and 0.0 for the constant sampler that
samples everything and nothing, the configured rate for the probabilistic sampler. -/
def Sampler.rate : Sampler → Option Float64
  | Sampler.const true => some Float64.one
  | Sampler.const false => some Float64.zero
  | Sampler.probabilistic r => some r
  | Sampler.nilProbabilistic => none

/-- The sampler samples every trace: its rate is 1.0. -/
def Sampler.samplesEverything (s : Sampler) : Prop :=
  s.rate = some Float64.one

/-- The sampler samples no trace: its rate is 0.0. -/
def Sampler.samplesNothing (s : Sampler) : Prop :=
  s.rate = some Float64.zero

end jaeger

/-! ## tracing.go: configuration -/

def environmentKey : String := "environment"

abbrev tracerSampler := String

def ConstantSampler : tracerSampler := "CONSTANT"

def ProbabilisticSampler : tracerSampler := "PROBABILISTIC"

/-- Method `(ts *tracerSampler) UnmarshalText(bs)`: the receiver after the call and the error. -/
def tracerSampler.UnmarshalText (ts : tracerSampler) (bs : String) : tracerSampler × GoError :=
  let text : tracerSampler := bs
  if text = ProbabilisticSampler ∨ text = ConstantSampler then
    (text, none)
  else
    (ts, some "Invalid tracer type")

structure tracerConfig where
  serviceName : String
  tracer : String
  hostName : String
  hostPort : String
  sampler : tracerSampler
  samplerValue : String
  logger : Option Logger
  tags : GoMap
deriving DecidableEq

/-- Function `getTracerConfig()` run in the process environment `env`. -/
def getTracerConfig (env : Env) : tracerConfig × GoError :=
  let cfg : tracerConfig :=
    { serviceName := "", tracer := "", hostName := "localhost", hostPort := "",
      sampler := ConstantSampler, samplerValue := "true", logger := none,
      tags := [(environmentKey, "undefined")] }
  let finish : tracerConfig → tracerConfig × GoError := fun cfg =>
    match os.LookupEnv env "TRACER_ENVIRONMENT" with
    | (e, ex) =>
      if ex && e != "" then
        ({ cfg with tags := cfg.tags.set environmentKey e }, none)
      else
        (cfg, none)
  match os.LookupEnv env "TRACER_SERVICE" with
  | (service, ex) =>
    if ex && service != "" then
      let cfg := { cfg with tracer := service }
      let cfg :=
        match os.LookupEnv env "TRACER_HOST" with
        | (hostname, hex) =>
          if hex && hostname != "" then { cfg with hostName := hostname } else cfg
      match os.LookupEnv env "TRACER_SAMPLER" with
      | (sampler, true) =>
        match cfg.sampler.UnmarshalText sampler with
        | (ts, some err) => ({ cfg with sampler := ts }, some err)
        | (ts, none) =>
          finish { cfg with sampler := ts,
                            samplerValue := (os.LookupEnv env "TRACER_SAMPLER_VALUE").1 }
      | (_, false) => finish cfg
    else if !ex then
      (cfg, none)
    else
      (cfg, some "tracer type is empty")

/-! ## datadog-tracer.go and jaeger-tracer.go: sampler construction

`parseFloat` stands for `strconv.ParseFloat(·, 64)` of the Go standard library. -/

/-- Method `datadogTracer.getSampler(s, val)`. -/
def datadogTracer.getSampler (parseFloat : String → Float64 × GoError)
    (s : tracerSampler) (val : String) : dtracer.RateSampler :=
  if s = ConstantSampler then
    if val = "true" then dtracer.NewRateSampler Float64.one
    else dtracer.NewRateSampler Float64.zero
  else if s = ProbabilisticSampler then
    match parseFloat val with
    | (f, err) =>
      let f := if err ≠ none then Float64.zero else f
      let f := math.Max (math.Min f Float64.one) Float64.zero
      dtracer.NewRateSampler f
  else dtracer.NewRateSampler Float64.zero

/-- Function `getJaegerSampler(s, val)`. -/
def getJaegerSampler (parseFloat : String → Float64 × GoError)
    (s : tracerSampler) (val : String) : jaeger.Sampler :=
  if s = ConstantSampler then
    let v := decide (val = "true")
    jaeger.NewConstSampler v
  else if s = ProbabilisticSampler then
    match parseFloat val with
    | (f, err) =>
      let f := if err ≠ none then Float64.zero else f
      let f := math.Max (math.Min f Float64.one) Float64.zero
      (jaeger.NewProbabilisticSampler f).1
  else jaeger.NewConstSampler true

/-! ## Tracers, closers and the effects of the adapters -/

/-- Options handed to `(jaegercfg.Configuration).NewTracer`: the service name of the
configuration, the logger, the address of the remote reporter's UDP sender, the sampler
and the global `environment` tag. -/
structure JaegerOptions where
  serviceName : String
  logger : Logger
  reporterAddr : String
  sampler : jaeger.Sampler
  envTag : String
deriving DecidableEq

/-- An `opentracing.Tracer` value. -/
inductive Tracer where
  | nil
  | noop
  | datadog (serviceName agentAddr : String) (sampler : dtracer.RateSampler) (envTag : String)
  | jaeger (opts : JaegerOptions)
deriving DecidableEq

/-- An `io.Closer` value. -/
inductive Closer where
  | nil
  | noopCloser
  | datadogTracer (tracer : Tracer)
  | jaeger (opts : JaegerOptions)
deriving DecidableEq

/-- The package variable `defaultNoopTracer`. -/
def defaultNoopTracer : Tracer := Tracer.noop

/-- Calls into the backend SDKs and the logger, in the order they are made. -/
inductive Event where
  | datadogNew (serviceName agentAddr : String) (sampler : dtracer.RateSampler) (envTag : String)
  | jaegerUDPTransport (hostPort : String) (maxPacketSize : Nat)
  | jaegerNewTracer (opts : JaegerOptions)
  | logErrorf (logger : Logger) (msg : String)
deriving DecidableEq

/-- Process-wide state touched by tracer initialisation: the tracer registered with
`opentracing.SetGlobalTracer` and the record of SDK and logger calls. -/
structure World where
  globalTracer : Tracer
  events : List Event
deriving DecidableEq

/-- How a call ends: it returns a value or it panics. -/
inductive Outcome (α : Type) where
  | ret (a : α)
  | panic (msg : String)
deriving DecidableEq

/-- Functions of the Go standard library and of the Jaeger SDK whose results the
package only passes on: `strconv.ParseFloat(·, 64)`, the error of
`jaeger.NewUDPTransport(hostPort, maxPacketSize)`, and the three results of
`(jaegercfg.Configuration).NewTracer(options...)`. -/
structure Externals where
  ParseFloat : String → Float64 × GoError
  NewUDPTransport : String → Nat → GoError
  NewTracer : JaegerOptions → Tracer × Closer × GoError

/-- Method `(t *datadogTracer) Init(cfg)`. -/
def datadogTracer.Init (ext : Externals) (cfg : tracerConfig) (w : World) :
    Outcome (Tracer × Closer × GoError) × World :=
  let host := cfg.hostName
  let host := if cfg.hostPort ≠ "" then host ++ ":" ++ cfg.hostPort else host
  let sampler := datadogTracer.getSampler ext.ParseFloat cfg.sampler cfg.samplerValue
  let envTag := cfg.tags.index environmentKey
  let tracer := Tracer.datadog cfg.serviceName host sampler envTag
  (Outcome.ret (tracer, Closer.datadogTracer tracer, none),
    { w with events := w.events ++ [Event.datadogNew cfg.serviceName host sampler envTag] })

/-- Function `initDatadogTracer(cfg)`. -/
def initDatadogTracer (ext : Externals) (cfg : tracerConfig) (w : World) :
    Outcome (Tracer × Closer × GoError) × World :=
  datadogTracer.Init ext cfg w

/-- Function `initJaegerTracer(cfg)`. A method call on a nil `cfg.logger` panics. -/
def initJaegerTracer (ext : Externals) (cfg : tracerConfig) (w : World) :
    Outcome (Tracer × Closer × GoError) × World :=
  let cfg := if cfg.hostPort = "" then { cfg with hostPort := "6831" } else cfg
  let addr := cfg.hostName ++ ":" ++ cfg.hostPort
  let w := { w with events := w.events ++ [Event.jaegerUDPTransport addr (2 ^ 16)] }
  match ext.NewUDPTransport addr (2 ^ 16) with
  | some err =>
    match cfg.logger with
    | none => (Outcome.panic "invalid memory address or nil pointer dereference", w)
    | some lg =>
      (Outcome.ret (defaultNoopTracer, Closer.noopCloser, some err),
        { w with events := w.events ++
            [Event.logErrorf lg ("Error when initializing opentracing reporter: " ++ err)] })
  | none =>
    match cfg.logger with
    | none => (Outcome.panic "invalid memory address or nil pointer dereference", w)
    | some lg =>
      let logger := lg.AddFields [("tracer", FieldValue.str "jaeger")]
      let sampler := getJaegerSampler ext.ParseFloat cfg.sampler cfg.samplerValue
      let opts : JaegerOptions :=
        { serviceName := cfg.serviceName, logger := logger, reporterAddr := addr,
          sampler := sampler, envTag := cfg.tags.index environmentKey }
      (Outcome.ret (ext.NewTracer opts),
        { w with events := w.events ++ [Event.jaegerNewTracer opts] })

/-- Method `noopCloser.Close()`. -/
def noopCloser.Close : GoError := none

/-- Function `InitGlobalTracer(name, logger)` run in environment `env` from state `w`. -/
def InitGlobalTracer (ext : Externals) (env : Env) (name : String) (logger : Option Logger)
    (w : World) : Outcome (Closer × GoError) × World :=
  match getTracerConfig env with
  | (_, some err) => (Outcome.ret (Closer.noopCloser, some err), w)
  | (cfg, none) =>
    let cfg := { cfg with logger := logger, serviceName := name }
    let r : Outcome (Tracer × Closer × GoError) × World :=
      if cfg.tracer = "datadog" then initDatadogTracer ext cfg w
      else if cfg.tracer = "jaeger" then initJaegerTracer ext cfg w
      else (Outcome.ret (Tracer.noop, Closer.noopCloser, none), w)
    match r with
    | (Outcome.panic msg, w) => (Outcome.panic msg, w)
    | (Outcome.ret (_, closer, some err), w) => (Outcome.ret (closer, some err), w)
    | (Outcome.ret (tracer, closer, none), w) =>
      (Outcome.ret (closer, none), { w with globalTracer := tracer })

/-- A concrete choice of the external functions: the `strconv.ParseFloat` model, a UDP
transport that always opens, and a Jaeger SDK that always starts its tracer. -/
def Externals.reachable : Externals :=
  { ParseFloat := strconv.ParseFloat
    NewUDPTransport := fun _ _ => none
    NewTracer := fun opts => (Tracer.jaeger opts, Closer.jaeger opts, none) }

/-- The state of a process before tracer initialisation: no tracer registered, nothing called. -/
def World.initial : World :=
  { globalTracer := Tracer.nil, events := [] }

/-- External functions whose UDP transport cannot be opened. -/
def Externals.unreachable : Externals :=
  { ParseFloat := strconv.ParseFloat
    NewUDPTransport := fun _ _ => some "dial udp: lookup failed"
    NewTracer := fun opts => (Tracer.jaeger opts, Closer.jaeger opts, none) }

/-- The results of `n` successive calls of `noopCloser.Close()`. -/
def noopCloser.closeTimes (n : Nat) : List GoError :=
  (List.range n).map (fun _ => noopCloser.Close)

/-! ## configuration.go -/

/-- Server configuration; durations are in nanoseconds, as `time.Duration`. -/
structure Configuration where
  ApplicationName : String
  MaximumRequestDuration : Int
  MaximumBodySize : Int
  LogLevel : String
  ShutdownGraceTime : Int
deriving DecidableEq

/-- Function `NewConfiguration()`. -/
def NewConfiguration : Configuration :=
  { ApplicationName := "test_app"
    MaximumRequestDuration := 30 * 1000000000
    MaximumBodySize := 2 ^ 20
    LogLevel := "info"
    ShutdownGraceTime := 30 * 1000000000 }

/-! ## Contexts -/

/-- Type `DefaultContext`. -/
structure DefaultContext where
  RequestID : String
  ForwardedFor : String
  OrganizationID : String
deriving DecidableEq

/-- The zero value `DefaultContext{}`. -/
def DefaultContext.zero : DefaultContext :=
  { RequestID := "", ForwardedFor := "", OrganizationID := "" }

/-- A context key: its dynamic type and its value. -/
structure CtxKey where
  typeName : String
  name : String
deriving DecidableEq

/-- An `interface{}` value stored in a context: nil, a `DefaultContext`, a logger, or
a value of some other type (given by the name of the type and a rendering). -/
inductive CtxValue where
  | nil
  | defaultContext (v : DefaultContext)
  | logger (l : Logger)
  | other (typeName : String) (text : String)
deriving DecidableEq

/-- A `context.Context`: the values bound in it, innermost first, and its deadline in
nanoseconds of wall-clock time, if it has one. -/
structure Context where
  values : List (CtxKey × CtxValue)
  deadline : Option Int
deriving DecidableEq

/-- Method `ctx.Value(key)`: the innermost value bound to the key, nil when there is none. -/
def Context.Value (ctx : Context) (key : CtxKey) : CtxValue :=
  (ctx.values.lookup key).getD CtxValue.nil

namespace context

/-- The empty context `context.Background()`. -/
def Background : Context :=
  { values := [], deadline := none }

/-- Function `context.WithValue(parent, key, val)`. -/
def WithValue (parent : Context) (key : CtxKey) (val : CtxValue) : Context :=
  { parent with values := (key, val) :: parent.values }

/-- Function `context.WithDeadline(parent, d)`: the parent's deadline is kept when it is
earlier than `d`. -/
def WithDeadline (parent : Context) (d : Int) : Context :=
  match parent.deadline with
  | some cur => if cur < d then parent else { parent with deadline := some d }
  | none => { parent with deadline := some d }

/-- Function `context.WithTimeout(parent, timeout)` called at wall-clock time `now`:
it is `WithDeadline(parent, time.Now().Add(timeout))`. -/
def WithTimeout (parent : Context) (now : Int) (timeout : Int) : Context :=
  WithDeadline parent (now + timeout)

end context

namespace logging

/-- The key under which the logging package keeps the logger of a context. -/
def loggerKey : CtxKey :=
  { typeName := "logging.contextKey", name := "logger" }

/-- Function `logging.NewLogger()`: a logger that carries no fields yet. -/
def NewLogger : Logger :=
  { fields := [] }

/-- Function `logging.SetLogger(ctx, logger)`. -/
def SetLogger (ctx : Context) (logger : Logger) : Context :=
  context.WithValue ctx loggerKey (CtxValue.logger logger)

/-- Function `logging.GetLogger(ctx)`: the logger of the context, a new logger when the
context has none. -/
def GetLogger (ctx : Context) : Logger :=
  match ctx.Value loggerKey with
  | CtxValue.logger l => l
  | _ => NewLogger

end logging

/-- The package variable `fcKey`, of type `contextKey`. -/
def fcKey : CtxKey :=
  { typeName := "rest.contextKey", name := "DefaultContext" }

/-- Function `setDefaultContext(ctx, fctx)`. -/
def setDefaultContext (ctx : Context) (fctx : DefaultContext) : Context :=
  context.WithValue ctx fcKey (CtxValue.defaultContext fctx)

/-- Function `GetDefaultContext(ctx)`. -/
def GetDefaultContext (ctx : Context) : DefaultContext × GoError :=
  match ctx.Value fcKey with
  | CtxValue.nil => (DefaultContext.zero, some "no DefaultContext")
  | CtxValue.defaultContext fctx => (fctx, none)
  | _ => (DefaultContext.zero, some "default context key is corrupted")

/-! ## Requests, headers and bodies -/

/-- Canonical form of header-name characters: upper case at the start and after a
hyphen, lower case elsewhere. -/
def canonicalChars : Bool → List Char → List Char
  | _, [] => []
  | upper, c :: cs => (if upper then c.toUpper else c.toLower) :: canonicalChars (c = '-') cs

/-- Function `textproto.CanonicalMIMEHeaderKey` on names made of letters, digits and hyphens. -/
def CanonicalMIMEHeaderKey (k : String) : String :=
  String.mk (canonicalChars true k.data)

/-- An `http.Header`: canonical header names with their values. -/
abbrev Header := List (String × List String)

/-- Method `Header.Get(key)`: the first value under the canonical form of the name, the
empty string when there is none. -/
def Header.Get (h : Header) (key : String) : String :=
  match h.lookup (CanonicalMIMEHeaderKey key) with
  | some (v :: _) => v
  | _ => ""

/-- The error `io.EOF`. -/
def EOF : String := "EOF"

/-- The error of a read past the limit of `http.MaxBytesReader`. -/
def errTooLarge : String := "http: request body too large"

/-- A request body as a reader: the bytes still to be delivered by the connection, or an
`http.maxBytesReader` around a body with its remaining allowance `i` and its sticky
error `err`. -/
inductive Body where
  | raw (data : List Nat)
  | maxBytes (r : Body) (i : Nat) (err : GoError)
deriving DecidableEq

/-- Method `Read(p)` for a buffer `p` of length `plen`: the bytes stored in `p`, the
error, and the reader afterwards. The raw body delivers as many of its remaining bytes
as fit and reports `io.EOF` once none remain; the limited reader follows
`(*maxBytesReader).Read`. -/
def Body.Read : Body → Nat → (List Nat × GoError) × Body
  | Body.raw data, plen =>
    if data = [] then (([], some EOF), Body.raw data)
    else ((data.take plen, none), Body.raw (data.drop plen))
  | Body.maxBytes r i err, plen =>
    if err ≠ none then (([], err), Body.maxBytes r i err)
    else if plen = 0 then (([], none), Body.maxBytes r i err)
    else
      let plen := if plen - 1 > i then i + 1 else plen
      match r.Read plen with
      | ((bs, e), r1) =>
        if bs.length ≤ i then ((bs, e), Body.maxBytes r1 (i - bs.length) e)
        else ((bs.take i, some errTooLarge), Body.maxBytes r1 0 (some errTooLarge))

namespace http

/-- Function `http.MaxBytesReader(w, r, n)`; a negative `n` counts as 0. -/
def MaxBytesReader (r : Body) (n : Int) : Body :=
  Body.maxBytes r n.toNat none

end http

namespace ioutil

/-- Function `ioutil.ReadAll(r)`: reads until an error, the `k`-th read using a buffer of
`chunk k` free bytes; `io.EOF` is reported as a nil error. The first argument bounds the
number of reads; `none` means the bound was reached. -/
def ReadAll (chunk : Nat → Nat) : Nat → Nat → Body → List Nat → Option (List Nat × GoError)
  | 0, _, _, _ => none
  | fuel + 1, k, r, b =>
    match r.Read (chunk k) with
    | ((bs, some e), _) => some (b ++ bs, if e = EOF then none else some e)
    | ((bs, none), r1) => ReadAll chunk fuel (k + 1) r1 (b ++ bs)

end ioutil

/-- An `*http.Request`, with the fields the middleware reads and rewrites. -/
structure Request where
  Method : String
  Path : String
  Host : String
  RemoteAddr : String
  Header : Header
  Body : Option Body
  ctx : Context
deriving DecidableEq

namespace uuid

/-- A `uuid.UUID`: sixteen bytes. -/
structure UUID where
  bytes : List Nat
deriving DecidableEq

/-- Lower-case hexadecimal digit of a number below 16. -/
def hexDigit (n : Nat) : Char :=
  "0123456789abcdef".data.getD n '0'

/-- Two hexadecimal digits for each byte. -/
def encodeHex (bs : List Nat) : List Char :=
  bs.flatMap (fun b => [hexDigit (b / 16 % 16), hexDigit (b % 16)])

/-- Method `UUID.String()`: the form `xxxxxxxx-xxxx-xxxx-xxxx-xxxxxxxxxxxx`. -/
def UUID.String (u : UUID) : String :=
  String.mk (encodeHex (u.bytes.take 4) ++ ['-'] ++ encodeHex ((u.bytes.drop 4).take 2) ++
    ['-'] ++ encodeHex ((u.bytes.drop 6).take 2) ++ ['-'] ++
    encodeHex ((u.bytes.drop 8).take 2) ++ ['-'] ++ encodeHex ((u.bytes.drop 10).take 6))

end uuid

/-- What one run of the request middleware takes from outside the request: the value
`uuid.New()` returns and the wall-clock time `time.Now()` read by `context.WithTimeout`. -/
structure Runtime where
  uuid : uuid.UUID
  now : Int

/-- Functions of other packages used by the middleware: `xff.GetRemoteAddr`,
`net.SplitHostPort` (host, port, error), the text written by `runtime.Stack`, the
dump of `httputil.DumpRequest(r, false)`, and the float64 computation
`float64(ns) / 1000000.0` on a count of nanoseconds. -/
structure RestExternals where
  GetRemoteAddr : Request → String
  SplitHostPort : String → String × String × GoError
  Stack : String
  DumpRequest : Request → String
  Millis : Int → Float64

/-! ## rest.go: InitRequest -/

/-- Function `InitRequest(h)` applied to a request `r` under the package configuration
`config`: the result of the wrapped handler `h` on the rewritten request. -/
def InitRequest {α : Type} (ext : RestExternals) (config : Configuration) (h : Request → α)
    (rt : Runtime) (r : Request) : α :=
  let r : Request :=
    match r.Body with
    | some body => { r with Body := some (http.MaxBytesReader body config.MaximumBodySize) }
    | none => r
  let requestID := r.Header.Get "BMG-Request-Id"
  let requestID := if requestID = "" then rt.uuid.String else requestID
  let userIP :=
    match ext.SplitHostPort (ext.GetRemoteAddr r) with
    | (sip, _, none) => sip
    | _ => ""
  let logger := logging.NewLogger.AddFields
    [("request_id", FieldValue.str requestID),
     ("server_name", FieldValue.str r.Host),
     ("progname", FieldValue.str config.ApplicationName),
     ("user_agent", FieldValue.str (r.Header.Get "User-Agent")),
     ("user_ip", FieldValue.str userIP)]
  let apiKey := r.Header.Get "BMG-Retailer-Api-Key"
  let logger :=
    if apiKey ≠ "" then logger.AddFields [("retailer_api_key", FieldValue.str apiKey)]
    else logger
  let apiKey := r.Header.Get "BMG-Api-Key"
  let logger :=
    if apiKey ≠ "" then logger.AddFields [("api_key", FieldValue.str apiKey)] else logger
  let authToken := r.Header.Get "BMG-Auth-Token"
  let logger :=
    if authToken ≠ "" then logger.AddFields [("auth_token", FieldValue.str authToken)]
    else logger
  let oid := r.Header.Get "BMG-Organization-Id"
  let logger :=
    if oid ≠ "" then logger.AddFields [("organization_id", FieldValue.str oid)] else logger
  let organizationID := if oid ≠ "" then oid else ""
  let ctx := context.WithTimeout r.ctx rt.now config.MaximumRequestDuration
  let ctx := context.WithValue ctx fcKey (CtxValue.defaultContext
    { RequestID := requestID, ForwardedFor := r.Header.Get "X-Forwarded-For",
      OrganizationID := organizationID })
  let ctx := logging.SetLogger ctx logger
  let r := { r with ctx := ctx }
  h r

/-! ## rest.go: RequestLogger and Recovery -/

/-- The `error` an echo handler returns: nil, a `*echo.HTTPError` pointing to an error
with its code, a nil pointer of type `*echo.HTTPError` held in the interface, or an
error of another type. -/
inductive EchoError where
  | nil
  | httpError (code : Int) (message : String)
  | nilHTTPError
  | other (msg : String)
deriving DecidableEq

/-- Severity of a log line. -/
inductive LogLevel where
  | info
  | error
deriving DecidableEq

/-- A line written through a logger: severity, message and the fields of the logger. -/
structure LogLine where
  level : LogLevel
  msg : String
  fields : List (String × FieldValue)
deriving DecidableEq

/-- The `echo.Response` of a request: recorded status, whether the header was sent, and
the body written so far. -/
structure Response where
  Status : Int
  Committed : Bool
  Body : String
deriving DecidableEq

/-- State around the handling of one echo request: the wall clock in nanoseconds, the
log lines written, the response, and the calls of `c.String(code, s)` made so far. -/
structure Sys where
  now : Int
  logs : List LogLine
  response : Response
  written : List (Int × String)
deriving DecidableEq

/-- An `echo.Context`, identified by its request; its response lives in `Sys`. -/
structure EContext where
  Request : Request
deriving DecidableEq

/-- An `echo.HandlerFunc`: it returns an error or panics, and changes the state. -/
abbrev HandlerFunc := EContext → Sys → Outcome EchoError × Sys

/-- Method `Logger.Info(msg)`. -/
def Logger.Info (l : Logger) (msg : String) (s : Sys) : Sys :=
  { s with logs := s.logs ++ [{ level := LogLevel.info, msg := msg, fields := l.fields }] }

/-- Method `c.String(code, s)`: the call is recorded; `Response.WriteHeader(code)` sets
the status and commits the response unless it was already committed, and
`Response.Write` appends the text to the body. -/
def EContext.String (_c : EContext) (code : Int) (body : String) (s : Sys) : Sys :=
  { s with
    written := s.written ++ [(code, body)]
    response :=
      if s.response.Committed then { s.response with Body := s.response.Body ++ body }
      else { Status := code, Committed := true, Body := s.response.Body ++ body } }

/-- Function `RequestLogger(next)`. The type assertion `err.(*echo.HTTPError)` also
succeeds on a nil pointer of that type, and reading `httpError.Code` then panics. -/
def RequestLogger (ext : RestExternals) (next : HandlerFunc) : HandlerFunc := fun c s =>
  let req := c.Request
  let logger := (logging.GetLogger req.ctx).AddFields
    [("method", FieldValue.str req.Method), ("path", FieldValue.str req.Path)]
  let s := logger.Info "Starting" s
  let t := s.now
  match next c s with
  | (Outcome.panic msg, s) => (Outcome.panic msg, s)
  | (Outcome.ret err, s) =>
    let status := s.response.Status
    match err with
    | EchoError.nilHTTPError =>
      (Outcome.panic "invalid memory address or nil pointer dereference", s)
    | _ =>
      let status :=
        match err with
        | EchoError.httpError code _ => code
        | _ => status
      let s := (logger.AddFields
        [("status", FieldValue.int status),
         ("elapsed_time", FieldValue.float (ext.Millis (s.now - t)))]).Info "Finished" s
      (Outcome.ret err, s)

/-- External functions for a peer at `10.10.10.10:10000`. -/
def RestExternals.sample : RestExternals :=
  { GetRemoteAddr := fun r => r.RemoteAddr
    SplitHostPort := fun _ => ("10.10.10.10", "10000", none)
    Stack := "goroutine 1 [running]"
    DumpRequest := fun r => r.Method ++ " " ++ r.Path ++ " HTTP/1.1"
    Millis := fun ns => Float64.fin ((ns : ℚ) / 1000000) }

/-- A run of the middleware at time 0 with the all-zero UUID. -/
def Runtime.sample : Runtime :=
  { uuid := { bytes := List.replicate 16 0 }, now := 0 }

/-- A GET request for `/test` with the given headers and body. -/
def Request.sample (hdr : Rest.Header) (body : Option Rest.Body) : Request :=
  { Method := "GET", Path := "/test", Host := "localhost", RemoteAddr := "10.10.10.10:10000",
    Header := hdr, Body := body, ctx := context.Background }

/-- The state before a request is handled: nothing logged, nothing written, and the
response as echo resets it (status 200, not committed, empty body). -/
def Sys.initial : Sys :=
  { now := 0, logs := [], response := { Status := 200, Committed := false, Body := "" },
    written := [] }

/-! ## Properties of `getTracerConfig` -/

/-- C1: when TRACER_SERVICE is unset, getTracerConfig returns no error and a configuration
whose tracer field is the empty string, whatever the other variables are. -/
theorem getTracerConfig_service_unset (env : Env) (h : env "TRACER_SERVICE" = none) :
    (getTracerConfig env).2 = none ∧ (getTracerConfig env).1.tracer = "" := by
  simp [getTracerConfig, os.LookupEnv, h]

/-- Witness for C1: only TRACER_HOST, TRACER_SAMPLER and TRACER_ENVIRONMENT are set. -/
theorem getTracerConfig_service_unset_witness :
    Env.ofList [("TRACER_HOST", "agent"), ("TRACER_SAMPLER", "bogus"),
        ("TRACER_ENVIRONMENT", "prod")] "TRACER_SERVICE" = none ∧
      (getTracerConfig (Env.ofList [("TRACER_HOST", "agent"), ("TRACER_SAMPLER", "bogus"),
        ("TRACER_ENVIRONMENT", "prod")])).2 = none ∧
      (getTracerConfig (Env.ofList [("TRACER_HOST", "agent"), ("TRACER_SAMPLER", "bogus"),
        ("TRACER_ENVIRONMENT", "prod")])).1.tracer = "" :=
  ⟨by decide, getTracerConfig_service_unset _ (by decide)⟩

/-- C2: when TRACER_SERVICE is set to the empty string, getTracerConfig returns an error
whose message contains "tracer type is empty", and InitGlobalTracer returns that error
with the no-op closer, leaving the process state as it was. -/
theorem getTracerConfig_service_empty (ext : Externals) (env : Env) (name : String)
    (logger : Option Logger) (w : World) (h : env "TRACER_SERVICE" = some "") :
    ∃ msg : String, strContains msg "tracer type is empty" ∧
      (getTracerConfig env).2 = some msg ∧
      InitGlobalTracer ext env name logger w = (Outcome.ret (Closer.noopCloser, some msg), w) := by
  have hcfg : (getTracerConfig env).2 = some "tracer type is empty" := by
    simp [getTracerConfig, os.LookupEnv, h]
  refine ⟨"tracer type is empty", List.infix_refl _, hcfg, ?_⟩
  unfold InitGlobalTracer
  rcases hg : getTracerConfig env with ⟨cfg, err⟩
  rw [hg] at hcfg
  simp only at hcfg
  subst hcfg
  rfl

/-- Witness for C2: TRACER_SERVICE is set to the empty string next to a valid sampler. -/
theorem getTracerConfig_service_empty_witness :
    ∃ msg : String, strContains msg "tracer type is empty" ∧
      (getTracerConfig (Env.ofList [("TRACER_SERVICE", ""), ("TRACER_SAMPLER", "CONSTANT")])).2
        = some msg ∧
      InitGlobalTracer Externals.reachable
        (Env.ofList [("TRACER_SERVICE", ""), ("TRACER_SAMPLER", "CONSTANT")]) "svc" none
        World.initial = (Outcome.ret (Closer.noopCloser, some msg), World.initial) :=
  getTracerConfig_service_empty Externals.reachable _ "svc" none World.initial (by decide)

/-- C3, as stated, fails: with TRACER_SERVICE unset, an invalid TRACER_SAMPLER is never
looked at and getTracerConfig returns no error. -/
theorem getTracerConfig_bad_sampler_counterexample :
    Env.ofList [("TRACER_SAMPLER", "bogus")] "TRACER_SAMPLER" = some "bogus" ∧
      "bogus" ≠ "CONSTANT" ∧ "bogus" ≠ "PROBABILISTIC" ∧
      (getTracerConfig (Env.ofList [("TRACER_SAMPLER", "bogus")])).2 = none := by
  decide

/-- C3, amended: when TRACER_SERVICE is set (to any value) and TRACER_SAMPLER is present
with a value other than "CONSTANT" and "PROBABILISTIC", getTracerConfig returns an error. -/
theorem getTracerConfig_bad_sampler (env : Env) (svc v : String)
    (hs : env "TRACER_SERVICE" = some svc) (hv : env "TRACER_SAMPLER" = some v)
    (hc : v ≠ "CONSTANT") (hp : v ≠ "PROBABILISTIC") :
    ∃ msg : String, (getTracerConfig env).2 = some msg := by
  by_cases hsvc : svc = ""
  · exact ⟨"tracer type is empty", by simp [getTracerConfig, os.LookupEnv, hs, hsvc]⟩
  · refine ⟨"Invalid tracer type", ?_⟩
    simp [getTracerConfig, os.LookupEnv, hs, hsvc, hv, tracerSampler.UnmarshalText,
      ConstantSampler, ProbabilisticSampler, hc, hp]

/-- Witness for the amended C3: the empty sampler name under the jaeger backend. -/
theorem getTracerConfig_bad_sampler_witness :
    ∃ msg : String, (getTracerConfig
      (Env.ofList [("TRACER_SERVICE", "jaeger"), ("TRACER_SAMPLER", "")])).2 = some msg :=
  getTracerConfig_bad_sampler _ "jaeger" "" (by decide) (by decide) (by decide) (by decide)

/-! ## Properties of the sampler construction -/

/-- The clamp `math.Max(math.Min(f, 1.0), 0.0)` by cases on `f`: NaN stays NaN, the
infinities go to the nearer end, a finite value is clamped. -/
theorem clamp_cases (f : Float64) :
    math.Max (math.Min f Float64.one) Float64.zero =
      match f with
      | Float64.nan => Float64.nan
      | Float64.negInf => Float64.zero
      | Float64.posInf => Float64.one
      | Float64.fin q => Float64.fin (max (min q 1) 0) := by
  cases f with
  | nan => simp [math.Max, math.Min, Float64.one, Float64.zero]
  | negInf => simp [math.Max, math.Min, Float64.one, Float64.zero, Float64.lt]
  | posInf => simp [math.Max, math.Min, Float64.one, Float64.zero, Float64.lt]
  | fin q =>
    simp only [math.Min, Float64.one, Float64.zero, Float64.lt]
    by_cases h1 : q < 1
    · have hmin : min q 1 = q := min_eq_left h1.le
      by_cases h0 : 0 < q
      · simp [math.Max, Float64.lt, h1, h0, hmin, max_eq_left h0.le]
      · simp [math.Max, Float64.lt, h1, h0, hmin, max_eq_right (not_lt.mp h0)]
    · have hmin : min q 1 = 1 := min_eq_right (not_lt.mp h1)
      simp [math.Max, Float64.lt, h1, hmin]

/-- Unless it is NaN, the clamped value lies in `[0.0, 1.0]`. -/
theorem clamp_inUnitInterval (f : Float64) (h : f ≠ Float64.nan) :
    (math.Max (math.Min f Float64.one) Float64.zero).inUnitInterval := by
  rw [clamp_cases]
  cases f with
  | nan => exact absurd rfl h
  | negInf => simp [Float64.zero, Float64.inUnitInterval]
  | posInf => simp [Float64.one, Float64.inUnitInterval]
  | fin q => simp [Float64.inUnitInterval]

/-- The clamped value never compares below 0.0 or above 1.0, so the Jaeger
constructor accepts it. -/
theorem clamp_accepted (f : Float64) :
    jaeger.NewProbabilisticSampler (math.Max (math.Min f Float64.one) Float64.zero) =
      (jaeger.Sampler.probabilistic (math.Max (math.Min f Float64.one) Float64.zero), none) := by
  rw [clamp_cases]
  cases f with
  | nan => simp [jaeger.NewProbabilisticSampler, Float64.lt, Float64.one, Float64.zero]
  | negInf => simp [jaeger.NewProbabilisticSampler, Float64.lt, Float64.one, Float64.zero]
  | posInf => simp [jaeger.NewProbabilisticSampler, Float64.lt, Float64.one, Float64.zero]
  | fin q => simp [jaeger.NewProbabilisticSampler, Float64.lt, Float64.one, Float64.zero]

/-- C4: the Datadog sampler is the rate sampler with rate 1.0 for Constant and "true",
0.0 for Constant and any other value, the clamp max(min(f, 1.0), 0.0) of the parsed value
(0.0 on a parse error) for Probabilistic, and 0.0 for every other kind; the ten rows of
the truth table hold. -/
theorem datadog_getSampler_rate :
    (∀ (parseFloat : String → Float64 × GoError) (s : tracerSampler) (v : String),
      datadogTracer.getSampler parseFloat s v = dtracer.NewRateSampler
        (if s = ConstantSampler then
          (if v = "true" then Float64.one else Float64.zero)
        else if s = ProbabilisticSampler then
          math.Max (math.Min
            (if (parseFloat v).2 = none then (parseFloat v).1 else Float64.zero)
            Float64.one) Float64.zero
        else Float64.zero)) ∧
    (datadogTracer.getSampler strconv.ParseFloat ConstantSampler "").rate = Float64.fin 0 ∧
    (datadogTracer.getSampler strconv.ParseFloat ConstantSampler "invalid").rate
      = Float64.fin 0 ∧
    (datadogTracer.getSampler strconv.ParseFloat ConstantSampler "false").rate
      = Float64.fin 0 ∧
    (datadogTracer.getSampler strconv.ParseFloat ConstantSampler "true").rate
      = Float64.fin 1 ∧
    (datadogTracer.getSampler strconv.ParseFloat ProbabilisticSampler "").rate
      = Float64.fin 0 ∧
    (datadogTracer.getSampler strconv.ParseFloat ProbabilisticSampler "invalid").rate
      = Float64.fin 0 ∧
    (datadogTracer.getSampler strconv.ParseFloat ProbabilisticSampler "0.0").rate
      = Float64.fin 0 ∧
    (datadogTracer.getSampler strconv.ParseFloat ProbabilisticSampler "0.5").rate
      = Float64.fin (1 / 2) ∧
    (datadogTracer.getSampler strconv.ParseFloat ProbabilisticSampler "-0.5").rate
      = Float64.fin 0 ∧
    (∀ v : String, (datadogTracer.getSampler strconv.ParseFloat "" v).rate = Float64.fin 0) := by
  refine ⟨?_, by decide, by decide, by decide, by decide, by decide!, by decide!, by decide!,
    by decide!, by decide!, ?_⟩
  · intro parseFloat s v
    unfold datadogTracer.getSampler
    by_cases hc : s = ConstantSampler
    · by_cases hv : v = "true" <;> simp [hc, hv]
    · by_cases hp : s = ProbabilisticSampler
      · have hpc : ProbabilisticSampler ≠ ConstantSampler := by decide
        subst hp
        rcases hpf : parseFloat v with ⟨f, err⟩
        cases err <;> simp [hpc]
      · simp [hc, hp]
  · intro v
    have h1 : ("" : tracerSampler) ≠ ConstantSampler := by decide
    have h2 : ("" : tracerSampler) ≠ ProbabilisticSampler := by decide
    simp [datadogTracer.getSampler, h1, h2, dtracer.NewRateSampler, Float64.zero]

/-- C5, as stated, fails: for the unknown kind "" the Jaeger sampler is the constant
sampler that samples everything, while the Datadog sampler has rate 0.0, not 1.0. -/
theorem getJaegerSampler_unknown_kind_counterexample :
    getJaegerSampler strconv.ParseFloat "" "" = jaeger.Sampler.const true ∧
      (getJaegerSampler strconv.ParseFloat "" "").samplesEverything ∧
      ¬ (getJaegerSampler strconv.ParseFloat "" "").samplesNothing ∧
      (datadogTracer.getSampler strconv.ParseFloat "" "").rate = Float64.zero ∧
      (datadogTracer.getSampler strconv.ParseFloat "" "").rate ≠ Float64.one := by
  have h1 : ("" : tracerSampler) ≠ ConstantSampler := by decide
  have h2 : ("" : tracerSampler) ≠ ProbabilisticSampler := by decide
  have hj : getJaegerSampler strconv.ParseFloat "" "" = jaeger.Sampler.const true := by
    simp [getJaegerSampler, h1, h2, jaeger.NewConstSampler]
  have hd : (datadogTracer.getSampler strconv.ParseFloat "" "").rate = Float64.zero := by
    simp [datadogTracer.getSampler, h1, h2, dtracer.NewRateSampler]
  refine ⟨hj, ?_, ?_, hd, ?_⟩
  · rw [hj]; rfl
  · rw [hj]; simp [jaeger.Sampler.samplesNothing, jaeger.Sampler.rate, Float64.one, Float64.zero]
  · rw [hd]; simp [Float64.one, Float64.zero]

/-- C5, amended: for the kinds Constant and Probabilistic the Jaeger sampler has the rate
of the Datadog sampler, so it samples everything exactly when that rate is 1.0 and nothing
exactly when it is 0.0; for every other kind the Jaeger sampler is the constant sampler
that samples everything, while the Datadog rate is 0.0. -/
theorem getJaegerSampler_vs_datadog (parseFloat : String → Float64 × GoError)
    (s : tracerSampler) (v : String) :
    if s = ConstantSampler ∨ s = ProbabilisticSampler then
      (getJaegerSampler parseFloat s v).rate
          = some (datadogTracer.getSampler parseFloat s v).rate ∧
        ((getJaegerSampler parseFloat s v).samplesEverything ↔
          (datadogTracer.getSampler parseFloat s v).rate = Float64.one) ∧
        ((getJaegerSampler parseFloat s v).samplesNothing ↔
          (datadogTracer.getSampler parseFloat s v).rate = Float64.zero)
    else
      getJaegerSampler parseFloat s v = jaeger.NewConstSampler true ∧
        (getJaegerSampler parseFloat s v).samplesEverything ∧
        (datadogTracer.getSampler parseFloat s v).rate = Float64.zero := by
  have key : (s = ConstantSampler ∨ s = ProbabilisticSampler) →
      (getJaegerSampler parseFloat s v).rate
        = some (datadogTracer.getSampler parseFloat s v).rate := by
    intro h
    unfold getJaegerSampler datadogTracer.getSampler
    by_cases hc : s = ConstantSampler
    · by_cases hv : v = "true" <;>
        simp [hc, hv, jaeger.NewConstSampler, dtracer.NewRateSampler, jaeger.Sampler.rate]
    · have hp : s = ProbabilisticSampler := h.resolve_left hc
      have hpc : ProbabilisticSampler ≠ ConstantSampler := by decide
      simp only [hp, hpc, if_false, if_true, clamp_accepted, dtracer.NewRateSampler,
        jaeger.Sampler.rate]
  by_cases h : s = ConstantSampler ∨ s = ProbabilisticSampler
  · rw [if_pos h]
    have hk := key h
    refine ⟨hk, ?_, ?_⟩
    · unfold jaeger.Sampler.samplesEverything
      rw [hk]
      exact Option.some_inj
    · unfold jaeger.Sampler.samplesNothing
      rw [hk]
      exact Option.some_inj
  · rw [if_neg h]
    have hc : s ≠ ConstantSampler := fun e => h (Or.inl e)
    have hp : s ≠ ProbabilisticSampler := fun e => h (Or.inr e)
    simp [getJaegerSampler, datadogTracer.getSampler, hc, hp, dtracer.NewRateSampler,
      jaeger.NewConstSampler, jaeger.Sampler.samplesEverything, jaeger.Sampler.rate]

/-- Unless the parser returns NaN without an error, the rate of the Datadog sampler of
kind Probabilistic lies in `[0.0, 1.0]`. -/
theorem probabilistic_rate_inUnitInterval (parseFloat : String → Float64 × GoError)
    (v : String) (h : parseFloat v ≠ (Float64.nan, none)) :
    (datadogTracer.getSampler parseFloat ProbabilisticSampler v).rate.inUnitInterval := by
  have hpc : ProbabilisticSampler ≠ ConstantSampler := by decide
  unfold datadogTracer.getSampler
  rcases hpf : parseFloat v with ⟨f, err⟩
  rw [hpf] at h
  cases err with
  | none =>
    have hf : f ≠ Float64.nan := fun e => h (by rw [e])
    simpa [hpc, dtracer.NewRateSampler] using clamp_inUnitInterval f hf
  | some e =>
    have hz : Float64.zero ≠ Float64.nan := by simp [Float64.zero]
    simpa [hpc, dtracer.NewRateSampler] using clamp_inUnitInterval Float64.zero hz

/-- C6 at the failing input: the environment TRACER_SERVICE=datadog,
TRACER_SAMPLER=PROBABILISTIC, TRACER_SAMPLER_VALUE=NaN is accepted by getTracerConfig
with sampler kind Probabilistic and value "NaN"; for that value the parser returns NaN
without an error, the clamp leaves NaN unchanged, and both adapters hand NaN, which is
not in `[0.0, 1.0]`, to the sampler constructor. The other values named by the claim
("Inf", "-Inf", "1e999", "2") do end in the interval. -/
theorem probabilistic_nan_escapes_clamp :
    getTracerConfig (Env.ofList [("TRACER_SERVICE", "datadog"),
        ("TRACER_SAMPLER", "PROBABILISTIC"), ("TRACER_SAMPLER_VALUE", "NaN")])
      = ({ serviceName := "", tracer := "datadog", hostName := "localhost", hostPort := "",
           sampler := ProbabilisticSampler, samplerValue := "NaN", logger := none,
           tags := [("environment", "undefined")] }, none) ∧
    strconv.ParseFloat "NaN" = (Float64.nan, none) ∧
    (datadogTracer.getSampler strconv.ParseFloat ProbabilisticSampler "NaN").rate
      = Float64.nan ∧
    getJaegerSampler strconv.ParseFloat ProbabilisticSampler "NaN"
      = jaeger.Sampler.probabilistic Float64.nan ∧
    ¬ Float64.nan.inUnitInterval ∧
    (datadogTracer.getSampler strconv.ParseFloat ProbabilisticSampler "Inf").rate
      = Float64.fin 1 ∧
    (datadogTracer.getSampler strconv.ParseFloat ProbabilisticSampler "-Inf").rate
      = Float64.fin 0 ∧
    (datadogTracer.getSampler strconv.ParseFloat ProbabilisticSampler "1e999").rate
      = Float64.fin 0 ∧
    (datadogTracer.getSampler strconv.ParseFloat ProbabilisticSampler "2").rate
      = Float64.fin 1 := by
  refine ⟨by decide, by decide, by decide, by decide, fun h => h, by decide!, by decide!,
    by decide!, by decide!⟩

/-! ## Defaults applied by `getTracerConfig` -/

/-- C8, as stated, fails in both halves: with TRACER_SAMPLER present and
TRACER_SAMPLER_VALUE absent the sampler value is the empty string, not "true"; and with
TRACER_SAMPLER absent a present TRACER_SAMPLER_VALUE is not read, the value stays "true". -/
theorem getTracerConfig_samplerValue_counterexample :
    (Env.ofList [("TRACER_SERVICE", "jaeger"), ("TRACER_SAMPLER", "CONSTANT")]
        "TRACER_SAMPLER_VALUE" = none ∧
      (getTracerConfig (Env.ofList [("TRACER_SERVICE", "jaeger"),
        ("TRACER_SAMPLER", "CONSTANT")])).2 = none ∧
      (getTracerConfig (Env.ofList [("TRACER_SERVICE", "jaeger"),
        ("TRACER_SAMPLER", "CONSTANT")])).1.samplerValue = "" ∧
      "" ≠ "true") ∧
    (Env.ofList [("TRACER_SERVICE", "jaeger"), ("TRACER_SAMPLER_VALUE", "0.5")]
        "TRACER_SAMPLER_VALUE" = some "0.5" ∧
      (getTracerConfig (Env.ofList [("TRACER_SERVICE", "jaeger"),
        ("TRACER_SAMPLER_VALUE", "0.5")])).2 = none ∧
      (getTracerConfig (Env.ofList [("TRACER_SERVICE", "jaeger"),
        ("TRACER_SAMPLER_VALUE", "0.5")])).1.samplerValue = "true" ∧
      "true" ≠ "0.5") := by
  decide

/-- C8, amended: when getTracerConfig returns no error, the sampler value is "true" if
TRACER_SERVICE or TRACER_SAMPLER is absent, and it equals the value of
TRACER_SAMPLER_VALUE if TRACER_SERVICE, TRACER_SAMPLER and TRACER_SAMPLER_VALUE are all
present. -/
theorem getTracerConfig_samplerValue (env : Env)
    (herr : (getTracerConfig env).2 = none) :
    ((env "TRACER_SERVICE" = none ∨ env "TRACER_SAMPLER" = none) →
        (getTracerConfig env).1.samplerValue = "true") ∧
      (∀ v : String, env "TRACER_SERVICE" ≠ none → env "TRACER_SAMPLER" ≠ none →
        env "TRACER_SAMPLER_VALUE" = some v → (getTracerConfig env).1.samplerValue = v) := by
  revert herr
  rcases hT : env "TRACER_SERVICE" with _ | svc <;>
  rcases hH : env "TRACER_HOST" with _ | h <;>
  rcases hS : env "TRACER_SAMPLER" with _ | sm <;>
  rcases hV : env "TRACER_SAMPLER_VALUE" with _ | sv <;>
  rcases hE : env "TRACER_ENVIRONMENT" with _ | e <;>
  simp [getTracerConfig, os.LookupEnv, hT, hH, hS, hV, hE, tracerSampler.UnmarshalText] <;>
  (repeat' split) <;> simp_all

/-- Witness for the amended C8: sampler kind and sampler value are both given. -/
theorem getTracerConfig_samplerValue_witness :
    (getTracerConfig (Env.ofList [("TRACER_SERVICE", "datadog"),
        ("TRACER_SAMPLER", "PROBABILISTIC"), ("TRACER_SAMPLER_VALUE", "0.1")])).2 = none ∧
      (getTracerConfig (Env.ofList [("TRACER_SERVICE", "datadog"),
        ("TRACER_SAMPLER", "PROBABILISTIC"), ("TRACER_SAMPLER_VALUE", "0.1")])).1.samplerValue
        = "0.1" ∧
      (getTracerConfig (Env.ofList [("TRACER_SERVICE", "datadog")])).1.samplerValue = "true" :=
  ⟨by decide,
    (getTracerConfig_samplerValue (Env.ofList [("TRACER_SERVICE", "datadog"),
      ("TRACER_SAMPLER", "PROBABILISTIC"), ("TRACER_SAMPLER_VALUE", "0.1")]) (by decide)).2
      "0.1" (by decide) (by decide) (by decide),
    (getTracerConfig_samplerValue (Env.ofList [("TRACER_SERVICE", "datadog")]) (by decide)).1
      (Or.inr (by decide))⟩

/-- C9, as stated, fails: with TRACER_SERVICE unset, a present and non-empty
TRACER_ENVIRONMENT is not read and the tag stays "undefined". -/
theorem getTracerConfig_environment_counterexample :
    Env.ofList [("TRACER_ENVIRONMENT", "prod")] "TRACER_ENVIRONMENT" = some "prod" ∧
      "prod" ≠ "" ∧
      (getTracerConfig (Env.ofList [("TRACER_ENVIRONMENT", "prod")])).2 = none ∧
      (getTracerConfig (Env.ofList [("TRACER_ENVIRONMENT", "prod")])).1.tags.index
        "environment" = "undefined" ∧
      "undefined" ≠ "prod" := by
  decide

/-- C9, amended: the tags of the returned configuration always contain the key
"environment"; its value is "undefined" when TRACER_ENVIRONMENT is absent, and equals
the value of TRACER_ENVIRONMENT when that variable is present and non-empty,
TRACER_SERVICE is set and getTracerConfig returns no error. -/
theorem getTracerConfig_environment_tag (env : Env) :
    (getTracerConfig env).1.tags.hasKey "environment" = true ∧
      (env "TRACER_ENVIRONMENT" = none →
        (getTracerConfig env).1.tags.index "environment" = "undefined") ∧
      (∀ v : String, env "TRACER_SERVICE" ≠ none → (getTracerConfig env).2 = none →
        env "TRACER_ENVIRONMENT" = some v → v ≠ "" →
        (getTracerConfig env).1.tags.index "environment" = v) := by
  rcases hT : env "TRACER_SERVICE" with _ | svc <;>
  rcases hH : env "TRACER_HOST" with _ | h <;>
  rcases hS : env "TRACER_SAMPLER" with _ | sm <;>
  rcases hE : env "TRACER_ENVIRONMENT" with _ | e <;>
  simp [getTracerConfig, os.LookupEnv, hT, hH, hS, hE, tracerSampler.UnmarshalText,
    GoMap.hasKey, GoMap.index, GoMap.set, environmentKey] <;>
  (repeat' split) <;>
  simp_all [GoMap.hasKey, GoMap.index, GoMap.set, environmentKey]

/-- Witness for the amended C9: the jaeger backend with the environment tag "env". -/
theorem getTracerConfig_environment_tag_witness :
    (getTracerConfig (Env.ofList [("TRACER_SERVICE", "jaeger"),
        ("TRACER_ENVIRONMENT", "env")])).1.tags.index "environment" = "env" ∧
      (getTracerConfig (Env.ofList [("TRACER_SERVICE", "jaeger")])).1.tags.index
        "environment" = "undefined" :=
  ⟨(getTracerConfig_environment_tag (Env.ofList [("TRACER_SERVICE", "jaeger"),
      ("TRACER_ENVIRONMENT", "env")])).2.2 "env" (by decide) (by decide) (by decide)
      (by decide),
    (getTracerConfig_environment_tag (Env.ofList [("TRACER_SERVICE", "jaeger")])).2.1
      (by decide)⟩

/-! ## Backend dispatch in `InitGlobalTracer` -/

/-- C10: when getTracerConfig succeeds and the backend is neither "datadog" nor "jaeger",
InitGlobalTracer returns (without panicking) the no-op closer and a nil error, registers
the no-op tracer as the global tracer, and makes no call to either adapter: the record
of SDK and logger calls is unchanged. -/
theorem InitGlobalTracer_unknown_backend (ext : Externals) (env : Env) (name : String)
    (logger : Option Logger) (w : World)
    (herr : (getTracerConfig env).2 = none)
    (hd : (getTracerConfig env).1.tracer ≠ "datadog")
    (hj : (getTracerConfig env).1.tracer ≠ "jaeger") :
    (InitGlobalTracer ext env name logger w).1 = Outcome.ret (Closer.noopCloser, none) ∧
      (InitGlobalTracer ext env name logger w).2.globalTracer = Tracer.noop ∧
      (InitGlobalTracer ext env name logger w).2.events = w.events := by
  unfold InitGlobalTracer
  rcases hg : getTracerConfig env with ⟨cfg, err⟩
  rw [hg] at herr hd hj
  simp only at herr hd hj
  subst herr
  simp [hd, hj]

/-- Witness for C10: the backend name "zipkin" is not one of the two adapters. -/
theorem InitGlobalTracer_unknown_backend_witness :
    (getTracerConfig (Env.ofList [("TRACER_SERVICE", "zipkin")])).1.tracer = "zipkin" ∧
      (InitGlobalTracer Externals.reachable (Env.ofList [("TRACER_SERVICE", "zipkin")])
        "svc" none World.initial).1 = Outcome.ret (Closer.noopCloser, none) ∧
      (InitGlobalTracer Externals.reachable (Env.ofList [("TRACER_SERVICE", "zipkin")])
        "svc" none World.initial).2.globalTracer = Tracer.noop ∧
      (InitGlobalTracer Externals.reachable (Env.ofList [("TRACER_SERVICE", "zipkin")])
        "svc" none World.initial).2.events = World.initial.events :=
  ⟨by decide,
    InitGlobalTracer_unknown_backend Externals.reachable
      (Env.ofList [("TRACER_SERVICE", "zipkin")]) "svc" none World.initial
      (by decide) (by decide) (by decide)⟩

/-! ## Aborted initialisation and the Jaeger transport -/

/-- C11: when getTracerConfig returns an error, InitGlobalTracer returns (without
panicking) that same error with the no-op closer and leaves the process state as it was:
no adapter or SDK call is recorded and the registered global tracer is unchanged. Every
one of any number of calls of the no-op closer's Close returns nil. -/
theorem InitGlobalTracer_config_error (ext : Externals) (env : Env) (name : String)
    (logger : Option Logger) (w : World) (e : String)
    (herr : (getTracerConfig env).2 = some e) :
    InitGlobalTracer ext env name logger w = (Outcome.ret (Closer.noopCloser, some e), w) ∧
      ∀ n : Nat, ∀ r ∈ noopCloser.closeTimes n, r = none := by
  constructor
  · unfold InitGlobalTracer
    rcases hg : getTracerConfig env with ⟨cfg, err⟩
    rw [hg] at herr
    simp only at herr
    subst herr
    rfl
  · intro n r hr
    simp [noopCloser.closeTimes, noopCloser.Close] at hr
    exact hr.2.symm ▸ rfl

/-- Witness for C11: an invalid sampler name under the jaeger backend. -/
theorem InitGlobalTracer_config_error_witness :
    InitGlobalTracer Externals.reachable
        (Env.ofList [("TRACER_SERVICE", "jaeger"), ("TRACER_SAMPLER", "invalid")]) "svc" none
        World.initial
      = (Outcome.ret (Closer.noopCloser, some "Invalid tracer type"), World.initial) ∧
      ∀ n : Nat, ∀ r ∈ noopCloser.closeTimes n, r = none :=
  InitGlobalTracer_config_error Externals.reachable _ "svc" none World.initial
    "Invalid tracer type" (by decide)

/-- C12, as stated, fails: the configuration getTracerConfig returns for
TRACER_SERVICE=jaeger has a nil logger; when the UDP transport to "localhost:6831" cannot
be opened, initJaegerTracer calls Errorf on that nil logger and panics. -/
theorem initJaegerTracer_nil_logger_counterexample :
    (getTracerConfig (Env.ofList [("TRACER_SERVICE", "jaeger")])).1.logger = none ∧
      Externals.unreachable.NewUDPTransport "localhost:6831" (2 ^ 16)
        = some "dial udp: lookup failed" ∧
      (initJaegerTracer Externals.unreachable
        (getTracerConfig (Env.ofList [("TRACER_SERVICE", "jaeger")])).1 World.initial).1
        = Outcome.panic "invalid memory address or nil pointer dereference" := by
  decide

/-- C12, amended: for every tracer configuration with a non-nil logger for which the UDP
transport to "hostName:hostPort" (hostPort replaced by "6831" when empty) fails with
error e, initJaegerTracer returns, without panicking, the no-op tracer, the no-op closer
and exactly e, after one Errorf call on the logger. -/
theorem initJaegerTracer_transport_failure (ext : Externals) (cfg : tracerConfig) (w : World)
    (lg : Logger) (e : String) (hlog : cfg.logger = some lg)
    (hfail : ext.NewUDPTransport
      (cfg.hostName ++ ":" ++ (if cfg.hostPort = "" then "6831" else cfg.hostPort)) (2 ^ 16)
      = some e) :
    initJaegerTracer ext cfg w =
      (Outcome.ret (defaultNoopTracer, Closer.noopCloser, some e),
        { w with events := w.events ++
          [Event.jaegerUDPTransport
            (cfg.hostName ++ ":" ++ (if cfg.hostPort = "" then "6831" else cfg.hostPort))
            (2 ^ 16),
           Event.logErrorf lg ("Error when initializing opentracing reporter: " ++ e)] }) := by
  have h16 : (2 : Nat) ^ 16 = 65536 := by norm_num
  rw [h16] at hfail
  unfold initJaegerTracer
  by_cases hp : cfg.hostPort = ""
  · simp only [hp, if_true] at hfail ⊢
    simp [hfail, hlog]
  · simp only [hp, if_false] at hfail ⊢
    simp [hfail, hlog]

/-- Witness for the amended C12: an agent host with no port, and a logger. -/
theorem initJaegerTracer_transport_failure_witness :
    initJaegerTracer Externals.unreachable
        { serviceName := "svc", tracer := "jaeger", hostName := "agent", hostPort := "",
          sampler := ConstantSampler, samplerValue := "true",
          logger := some logging.NewLogger, tags := [("environment", "undefined")] }
        World.initial =
      (Outcome.ret (defaultNoopTracer, Closer.noopCloser, some "dial udp: lookup failed"),
        { globalTracer := Tracer.nil,
          events := [Event.jaegerUDPTransport "agent:6831" (2 ^ 16),
            Event.logErrorf logging.NewLogger
              "Error when initializing opentracing reporter: dial udp: lookup failed"] }) :=
  initJaegerTracer_transport_failure Externals.unreachable _ World.initial logging.NewLogger
    "dial udp: lookup failed" rfl rfl

/-! ## The request context -/

/-- C13: GetDefaultContext returns (v, nil) on a context built by setDefaultContext with
v; on a context holding no value under the key it returns the zero DefaultContext and an
error; and on a context holding under the key a value that is not a DefaultContext it
returns the zero DefaultContext and an error. -/
theorem GetDefaultContext_cases :
    (∀ (ctx : Context) (v : DefaultContext),
      GetDefaultContext (setDefaultContext ctx v) = (v, none)) ∧
    (∀ ctx : Context, ctx.values.lookup fcKey = none →
      ∃ msg : String, GetDefaultContext ctx = (DefaultContext.zero, some msg)) ∧
    (∀ (ctx : Context) (val : CtxValue), ctx.values.lookup fcKey = some val →
      (∀ v : DefaultContext, val ≠ CtxValue.defaultContext v) →
      ∃ msg : String, GetDefaultContext ctx = (DefaultContext.zero, some msg)) := by
  refine ⟨?_, ?_, ?_⟩
  · intro ctx v
    simp [GetDefaultContext, setDefaultContext, context.WithValue, Context.Value]
  · intro ctx h
    exact ⟨"no DefaultContext", by simp [GetDefaultContext, Context.Value, h]⟩
  · intro ctx val h hv
    cases val with
    | nil => exact ⟨"no DefaultContext", by simp [GetDefaultContext, Context.Value, h]⟩
    | defaultContext v => exact absurd rfl (hv v)
    | logger l =>
      exact ⟨"default context key is corrupted", by simp [GetDefaultContext, Context.Value, h]⟩
    | other t x =>
      exact ⟨"default context key is corrupted", by simp [GetDefaultContext, Context.Value, h]⟩

/-- Witness for C13: the three contexts of the package's own test. -/
theorem GetDefaultContext_cases_witness :
    GetDefaultContext (setDefaultContext context.Background
        { RequestID := "", ForwardedFor := "", OrganizationID := "123" })
      = ({ RequestID := "", ForwardedFor := "", OrganizationID := "123" }, none) ∧
    (∃ msg : String, GetDefaultContext context.Background = (DefaultContext.zero, some msg)) ∧
    (∃ msg : String, GetDefaultContext
        (context.WithValue context.Background fcKey (CtxValue.other "string" "just string"))
      = (DefaultContext.zero, some msg)) :=
  ⟨GetDefaultContext_cases.1 _ _,
    GetDefaultContext_cases.2.1 context.Background (by decide),
    GetDefaultContext_cases.2.2
      (context.WithValue context.Background fcKey (CtxValue.other "string" "just string"))
      (CtxValue.other "string" "just string") (by decide) (fun v h => by cases h)⟩

/-- The text of a UUID is never empty: it contains the four hyphens. -/
theorem uuid_String_ne_empty (u : uuid.UUID) : u.String ≠ "" := by
  intro h
  have h1 := congrArg String.data h
  have h2 := congrArg List.length h1
  simp [uuid.UUID.String] at h2

/-- C14: the wrapped handler is called on the rewritten request; the DefaultContext
published in its context has RequestID equal to the BMG-Request-Id header when that is
non-empty and to the text of the newly generated UUID, which is not empty, otherwise; and
the logger of that context carries the same value in its request_id field. -/
theorem InitRequest_requestID (ext : RestExternals) (config : Configuration) (rt : Runtime)
    (r : Request) :
    (∀ (α : Type) (h : Request → α),
      InitRequest ext config h rt r = h (InitRequest ext config id rt r)) ∧
    (GetDefaultContext (InitRequest ext config id rt r).ctx).2 = none ∧
    (GetDefaultContext (InitRequest ext config id rt r).ctx).1.RequestID =
      (if r.Header.Get "BMG-Request-Id" ≠ "" then r.Header.Get "BMG-Request-Id"
        else rt.uuid.String) ∧
    rt.uuid.String ≠ "" ∧
    (logging.GetLogger (InitRequest ext config id rt r).ctx).field "request_id" =
      some (FieldValue.str (GetDefaultContext (InitRequest ext config id rt r).ctx).1.RequestID) := by
  have hk : (logging.loggerKey == fcKey) = false := by decide
  have hk2 : (fcKey == logging.loggerKey) = false := by decide
  refine ⟨fun α h => rfl, ?_, ?_, uuid_String_ne_empty _, ?_⟩
  · cases hb : r.Body <;>
    simp [InitRequest, hb, GetDefaultContext, Context.Value, logging.SetLogger,
      context.WithValue, List.lookup, hk, hk2]
  · cases hb : r.Body <;>
    by_cases hid : r.Header.Get "BMG-Request-Id" = "" <;>
    simp [InitRequest, hb, hid, GetDefaultContext, Context.Value, logging.SetLogger,
      context.WithValue, List.lookup, hk, hk2]
  · cases hb : r.Body <;>
    by_cases h1 : r.Header.Get "BMG-Retailer-Api-Key" = "" <;>
    by_cases h2 : r.Header.Get "BMG-Api-Key" = "" <;>
    by_cases h3 : r.Header.Get "BMG-Auth-Token" = "" <;>
    by_cases h4 : r.Header.Get "BMG-Organization-Id" = "" <;>
    simp [InitRequest, hb, h1, h2, h3, h4, GetDefaultContext, Context.Value,
      logging.SetLogger, logging.GetLogger, logging.NewLogger, Logger.AddFields, Logger.field,
      context.WithValue, List.lookup, hk, hk2]

/-- C15: the request logger carries request_id, server_name, progname, user_agent and
user_ip; and it carries retailer_api_key, api_key, auth_token and organization_id exactly
when the corresponding header is non-empty, with the header value. -/
theorem InitRequest_logger_fields (ext : RestExternals) (config : Configuration) (rt : Runtime)
    (r : Request) :
    ((logging.GetLogger (InitRequest ext config id rt r).ctx).field "request_id" =
        some (FieldValue.str (if r.Header.Get "BMG-Request-Id" ≠ "" then
          r.Header.Get "BMG-Request-Id" else rt.uuid.String)) ∧
      (logging.GetLogger (InitRequest ext config id rt r).ctx).field "server_name" =
        some (FieldValue.str r.Host) ∧
      (logging.GetLogger (InitRequest ext config id rt r).ctx).field "progname" =
        some (FieldValue.str config.ApplicationName) ∧
      (logging.GetLogger (InitRequest ext config id rt r).ctx).field "user_agent" =
        some (FieldValue.str (r.Header.Get "User-Agent")) ∧
      ((logging.GetLogger (InitRequest ext config id rt r).ctx).field "user_ip").isSome
        = true) ∧
    (logging.GetLogger (InitRequest ext config id rt r).ctx).field "retailer_api_key" =
      (if r.Header.Get "BMG-Retailer-Api-Key" ≠ "" then
        some (FieldValue.str (r.Header.Get "BMG-Retailer-Api-Key")) else none) ∧
    (logging.GetLogger (InitRequest ext config id rt r).ctx).field "api_key" =
      (if r.Header.Get "BMG-Api-Key" ≠ "" then
        some (FieldValue.str (r.Header.Get "BMG-Api-Key")) else none) ∧
    (logging.GetLogger (InitRequest ext config id rt r).ctx).field "auth_token" =
      (if r.Header.Get "BMG-Auth-Token" ≠ "" then
        some (FieldValue.str (r.Header.Get "BMG-Auth-Token")) else none) ∧
    (logging.GetLogger (InitRequest ext config id rt r).ctx).field "organization_id" =
      (if r.Header.Get "BMG-Organization-Id" ≠ "" then
        some (FieldValue.str (r.Header.Get "BMG-Organization-Id")) else none) := by
  have hk : (logging.loggerKey == fcKey) = false := by decide
  have hk2 : (fcKey == logging.loggerKey) = false := by decide
  cases hb : r.Body <;>
  by_cases h0 : r.Header.Get "BMG-Request-Id" = "" <;>
  by_cases h1 : r.Header.Get "BMG-Retailer-Api-Key" = "" <;>
  by_cases h2 : r.Header.Get "BMG-Api-Key" = "" <;>
  by_cases h3 : r.Header.Get "BMG-Auth-Token" = "" <;>
  by_cases h4 : r.Header.Get "BMG-Organization-Id" = "" <;>
  simp [InitRequest, hb, h0, h1, h2, h3, h4, Context.Value,
    logging.SetLogger, logging.GetLogger, logging.NewLogger, Logger.AddFields, Logger.field,
    context.WithValue, List.lookup, hk, hk2]

/-! ## The body ceiling -/

/-- Reading a limited body to the end when the remaining bytes fit the allowance: all of
them are returned, with a nil error. -/
theorem ReadAll_within_limit (chunk : Nat → Nat) (hchunk : ∀ k, 0 < chunk k) :
    ∀ (fuel k : Nat) (d : List Nat) (i : Nat) (acc : List Nat),
      d.length ≤ i → d.length + 1 ≤ fuel →
      ioutil.ReadAll chunk fuel k (Body.maxBytes (Body.raw d) i none) acc
        = some (acc ++ d, none) := by
  intro fuel
  induction fuel with
  | zero => intro k d i acc _ hf; omega
  | succ fuel ih =>
    intro k d i acc hle hf
    have hc := hchunk k
    have hc0 : chunk k ≠ 0 := by omega
    by_cases hd : d = []
    · subst hd
      simp [ioutil.ReadAll, Body.Read, hc0, EOF]
    · have hlen : 0 < d.length := List.length_pos.mpr hd
      by_cases hp : chunk k - 1 > i
      · have htake : (List.take (i + 1) d).length ≤ i := by
          rw [List.length_take]; omega
        have hdrop : List.drop (i + 1) d = [] := by
          apply List.drop_eq_nil_of_le; omega
        have hT : List.take (i + 1) d = d := by
          apply List.take_of_length_le; omega
        simp only [ioutil.ReadAll, Body.Read, hc0, hp, hd, if_true, if_false, htake]
        simp only [ne_eq, not_true_eq_false, if_false]
        rw [hdrop, hT]
        have := ih (k + 1) [] (i - d.length) (acc ++ d) (by simp) (by simp; omega)
        simpa using this
      · have htake : (List.take (chunk k) d).length ≤ i := by
          rw [List.length_take]; omega
        simp only [ioutil.ReadAll, Body.Read, hc0, hp, hd, if_true, if_false, htake]
        simp only [ne_eq, not_true_eq_false, if_false]
        have hdl : (List.drop (chunk k) d).length < d.length := by
          rw [List.length_drop]; omega
        have := ih (k + 1) (List.drop (chunk k) d) (i - (List.take (chunk k) d).length)
          (acc ++ List.take (chunk k) d)
          (by rw [List.length_drop, List.length_take]; omega) (by omega)
        simpa [List.append_assoc, List.take_append_drop] using this

/-- Reading a limited body to the end when more bytes remain than the allowance: the
bytes within the allowance are returned with the error of the limit. -/
theorem ReadAll_over_limit (chunk : Nat → Nat) (hchunk : ∀ k, 0 < chunk k) :
    ∀ (fuel k : Nat) (d : List Nat) (i : Nat) (acc : List Nat),
      i < d.length → i + 1 ≤ fuel →
      ioutil.ReadAll chunk fuel k (Body.maxBytes (Body.raw d) i none) acc
        = some (acc ++ d.take i, some errTooLarge) := by
  intro fuel
  induction fuel with
  | zero => intro k d i acc _ hf; omega
  | succ fuel ih =>
    intro k d i acc hlt hf
    have hc := hchunk k
    have hc0 : chunk k ≠ 0 := by omega
    have hd : d ≠ [] := by
      intro h; subst h; simp at hlt
    have hne : errTooLarge ≠ EOF := by decide
    by_cases hck : chunk k ≤ i
    · have hp : ¬ chunk k - 1 > i := by omega
      have hlt2 : (List.take (chunk k) d).length = chunk k := by
        rw [List.length_take]; omega
      have htake : (List.take (chunk k) d).length ≤ i := by omega
      simp only [ioutil.ReadAll, Body.Read, hc0, hp, hd, if_true, if_false, htake]
      simp only [ne_eq, not_true_eq_false, if_false]
      have := ih (k + 1) (List.drop (chunk k) d) (i - (List.take (chunk k) d).length)
        (acc ++ List.take (chunk k) d)
        (by rw [List.length_drop, hlt2]; omega) (by rw [hlt2]; omega)
      rw [this, hlt2]
      have hsplit : List.take i d =
          List.take (chunk k) d ++ List.take (i - chunk k) (List.drop (chunk k) d) := by
        have hi : i = chunk k + (i - chunk k) := by omega
        conv_lhs => rw [hi]
        exact List.take_add d (chunk k) (i - chunk k)
      rw [hsplit, List.append_assoc]
    · have hpl : (if chunk k - 1 > i then i + 1 else chunk k) = i + 1 := by
        split <;> omega
      have htake : ¬ (List.take (i + 1) d).length ≤ i := by
        rw [List.length_take]; omega
      simp only [ioutil.ReadAll, Body.Read, hc0, hpl, hd, if_true, if_false, htake]
      simp only [ne_eq, not_true_eq_false, if_false]
      simp [hne, List.take_take]

/-- C16: for a request whose body delivers `data`, under a non-negative MaximumBodySize,
the wrapped handler is called with the limited body (the request is not rejected), and
reading that body to the end yields the error "http: request body too large" when `data`
is longer than MaximumBodySize, and all of `data` with a nil error otherwise. -/
theorem InitRequest_body_limit (ext : RestExternals) (config : Configuration) (rt : Runtime)
    (r : Request) (data : List Nat) (chunk : Nat → Nat) (fuel : Nat)
    (hbody : r.Body = some (Body.raw data)) (hn : 0 ≤ config.MaximumBodySize)
    (hchunk : ∀ k, 0 < chunk k) (hfuel : data.length + 1 ≤ fuel) :
    (∀ (α : Type) (h : Request → α),
      InitRequest ext config h rt r = h (InitRequest ext config id rt r)) ∧
    ∃ b : Body, (InitRequest ext config id rt r).Body = some b ∧
      (config.MaximumBodySize < data.length →
        ioutil.ReadAll chunk fuel 0 b [] =
          some (data.take config.MaximumBodySize.toNat, some "http: request body too large")) ∧
      ((data.length : Int) ≤ config.MaximumBodySize →
        ioutil.ReadAll chunk fuel 0 b [] = some (data, none)) := by
  refine ⟨fun α h => rfl, Body.maxBytes (Body.raw data) config.MaximumBodySize.toNat none,
    ?_, ?_, ?_⟩
  · simp [InitRequest, hbody, http.MaxBytesReader]
  · intro hlt
    have h := ReadAll_over_limit chunk hchunk fuel 0 data config.MaximumBodySize.toNat []
      (by omega) (by omega)
    simpa [errTooLarge] using h
  · intro hle
    have h := ReadAll_within_limit chunk hchunk fuel 0 data config.MaximumBodySize.toNat []
      (by omega) (by omega)
    simpa using h

/-- Witness for C16: bodies of twelve and of three bytes under a ceiling of ten. -/
theorem InitRequest_body_limit_witness :
    (∃ b : Body,
      (InitRequest RestExternals.sample { NewConfiguration with MaximumBodySize := 10 } id
        Runtime.sample
        (Request.sample [] (some (Body.raw [1, 2, 3, 4, 5, 6, 7, 8, 9, 10, 11, 12])))).Body
        = some b ∧
      ioutil.ReadAll (fun _ => 512) 20 0 b [] =
        some ([1, 2, 3, 4, 5, 6, 7, 8, 9, 10], some "http: request body too large")) ∧
    (∃ b : Body,
      (InitRequest RestExternals.sample { NewConfiguration with MaximumBodySize := 10 } id
        Runtime.sample (Request.sample [] (some (Body.raw [1, 2, 3])))).Body = some b ∧
      ioutil.ReadAll (fun _ => 512) 20 0 b [] = some ([1, 2, 3], none)) := by
  obtain ⟨b1, hb1, hover, _⟩ := (InitRequest_body_limit RestExternals.sample
    { NewConfiguration with MaximumBodySize := 10 } Runtime.sample
    (Request.sample [] (some (Body.raw [1, 2, 3, 4, 5, 6, 7, 8, 9, 10, 11, 12])))
    [1, 2, 3, 4, 5, 6, 7, 8, 9, 10, 11, 12] (fun _ => 512) 20 rfl (by decide)
    (fun _ => by norm_num) (by decide)).2
  obtain ⟨b2, hb2, _, hfit⟩ := (InitRequest_body_limit RestExternals.sample
    { NewConfiguration with MaximumBodySize := 10 } Runtime.sample
    (Request.sample [] (some (Body.raw [1, 2, 3]))) [1, 2, 3] (fun _ => 512) 20 rfl
    (by decide) (fun _ => by norm_num) (by decide)).2
  exact ⟨⟨b1, hb1, hover (by decide)⟩, ⟨b2, hb2, hfit (by decide)⟩⟩

/-! ## RequestLogger and Recovery -/

/-- C17, as stated, fails: a handler that returns a nil `*echo.HTTPError` pointer as its
error has returned, yet RequestLogger panics when it reads the Code of that error: only
the line "Starting" is logged and the handler's error is not returned. -/
theorem RequestLogger_nil_HTTPError_counterexample :
    RequestLogger RestExternals.sample (fun _ s => (Outcome.ret EchoError.nilHTTPError, s))
        { Request := Request.sample [] none } Sys.initial =
      (Outcome.panic "invalid memory address or nil pointer dereference",
        { now := 0,
          logs := [{ level := LogLevel.info, msg := "Starting",
                     fields := [("method", FieldValue.str "GET"),
                                ("path", FieldValue.str "/test")] }],
          response := { Status := 200, Committed := false, Body := "" }, written := [] }) := by
  decide

/-- C17, amended: when the wrapped handler returns an error other than a nil
`*echo.HTTPError` pointer, RequestLogger has written the Info line "Starting" before
calling it and appends exactly one more line after it, the Info line "Finished", whose
status field is the Code of the error when the handler returned an `*echo.HTTPError` and
the recorded status of the response otherwise; the handler's error is returned
unchanged. -/
theorem RequestLogger_finished_status (ext : RestExternals) (next : HandlerFunc) (c : EContext)
    (s s1 : Sys) (err : EchoError)
    (hret : next c (Logger.Info (Logger.AddFields (logging.GetLogger c.Request.ctx)
      [("method", FieldValue.str c.Request.Method),
       ("path", FieldValue.str c.Request.Path)]) "Starting" s) = (Outcome.ret err, s1))
    (hnil : err ≠ EchoError.nilHTTPError) :
    (Logger.Info (Logger.AddFields (logging.GetLogger c.Request.ctx)
        [("method", FieldValue.str c.Request.Method),
         ("path", FieldValue.str c.Request.Path)]) "Starting" s).logs =
      s.logs ++ [{ level := LogLevel.info, msg := "Starting",
                   fields := (logging.GetLogger c.Request.ctx).fields ++
                     [("method", FieldValue.str c.Request.Method),
                      ("path", FieldValue.str c.Request.Path)] }] ∧
    ∃ line : LogLine,
      RequestLogger ext next c s = (Outcome.ret err, { s1 with logs := s1.logs ++ [line] }) ∧
      line.level = LogLevel.info ∧ line.msg = "Finished" ∧
      (Logger.mk line.fields).field "method" = some (FieldValue.str c.Request.Method) ∧
      (Logger.mk line.fields).field "path" = some (FieldValue.str c.Request.Path) ∧
      (Logger.mk line.fields).field "elapsed_time" =
        some (FieldValue.float (ext.Millis (s1.now - s.now))) ∧
      (Logger.mk line.fields).field "status" = some (FieldValue.int
        (match err with
         | EchoError.httpError code _ => code
         | _ => s1.response.Status)) := by
  refine ⟨by simp [Logger.Info, Logger.AddFields], ?_⟩
  unfold RequestLogger
  simp only [hret]
  cases err with
  | nilHTTPError => exact absurd rfl hnil
  | nil =>
    refine ⟨_, rfl, rfl, rfl, ?_, ?_, ?_, ?_⟩ <;>
    simp [Logger.AddFields, Logger.field, Logger.Info, List.lookup]
  | httpError code m =>
    refine ⟨_, rfl, rfl, rfl, ?_, ?_, ?_, ?_⟩ <;>
    simp [Logger.AddFields, Logger.field, Logger.Info, List.lookup]
  | other m =>
    refine ⟨_, rfl, rfl, rfl, ?_, ?_, ?_, ?_⟩ <;>
    simp [Logger.AddFields, Logger.field, Logger.Info, List.lookup]

/-- Witness for the amended C17: the handler returns a 404 HTTPError after the response
recorded 200. -/
theorem RequestLogger_finished_status_witness :
    ∃ line : LogLine,
      RequestLogger RestExternals.sample
          (fun _ s => (Outcome.ret (EchoError.httpError 404 "Not Found"),
            { s with response := { Status := 200, Committed := true, Body := "" } }))
          { Request := Request.sample [] none } Sys.initial
        = (Outcome.ret (EchoError.httpError 404 "Not Found"),
            { now := 0,
              logs := [{ level := LogLevel.info, msg := "Starting",
                         fields := [("method", FieldValue.str "GET"),
                                    ("path", FieldValue.str "/test")] }, line],
              response := { Status := 200, Committed := true, Body := "" }, written := [] }) ∧
      line.level = LogLevel.info ∧ line.msg = "Finished" ∧
      (Logger.mk line.fields).field "status" = some (FieldValue.int 404) := by
  obtain ⟨_, line, h, hl, hm, _, _, _, hs⟩ := RequestLogger_finished_status
    RestExternals.sample
    (fun _ s => (Outcome.ret (EchoError.httpError 404 "Not Found"),
      { s with response := { Status := 200, Committed := true, Body := "" } }))
    { Request := Request.sample [] none } Sys.initial _ (EchoError.httpError 404 "Not Found")
    rfl (by decide)
  exact ⟨line, h, hl, hm, hs⟩

/-- C19, as stated, fails: the same request, with the same original context, passed
through InitRequest at two different instants gets two different deadlines. -/
theorem InitRequest_deadline_counterexample :
    (InitRequest RestExternals.sample { NewConfiguration with MaximumRequestDuration := 10000000 }
        id { uuid := { bytes := List.replicate 16 0 }, now := 0 }
        (Request.sample [] none)).ctx.deadline = some 10000000 ∧
    (InitRequest RestExternals.sample { NewConfiguration with MaximumRequestDuration := 10000000 }
        id { uuid := { bytes := List.replicate 16 0 }, now := 5000000 }
        (Request.sample [] none)).ctx.deadline = some 15000000 ∧
    (10000000 : Int) ≠ 15000000 := by
  decide

/-- C19, amended: the deadline of the context handed to the wrapped handler is the
instant at which InitRequest calls context.WithTimeout plus MaximumRequestDuration,
unless the original request context has an earlier deadline, which is then kept. -/
theorem InitRequest_deadline (ext : RestExternals) (config : Configuration) (rt : Runtime)
    (r : Request) :
    (InitRequest ext config id rt r).ctx.deadline =
      some (match r.ctx.deadline with
        | some cur =>
          if cur < rt.now + config.MaximumRequestDuration then cur
          else rt.now + config.MaximumRequestDuration
        | none => rt.now + config.MaximumRequestDuration) := by
  cases hb : r.Body <;> cases hd : r.ctx.deadline <;>
  simp [InitRequest, hb, hd, logging.SetLogger, context.WithValue, context.WithTimeout,
    context.WithDeadline] <;>
  split <;> simp_all

/-! ## Sampler kinds that reach the adapters -/

/-- C20: UnmarshalText yields only "CONSTANT" or "PROBABILISTIC" when it succeeds and
leaves its receiver unchanged when it fails; so a configuration that getTracerConfig
returns without error has one of the two sampler kinds, and InitGlobalTracer hands that
kind on unchanged: the sampler the Datadog adapter gives to the SDK, and the one the
Jaeger adapter gives to the SDK once the transport is open, are those of the Constant
and Probabilistic branches, never the fallback. -/
theorem getTracerConfig_sampler_kind (env : Env) (cfg : tracerConfig) (ext : Externals)
    (name : String) (logger : Option Logger) (w : World)
    (hcfg : getTracerConfig env = (cfg, none)) :
    (∀ ts bs : String,
      ((tracerSampler.UnmarshalText ts bs).2 = none →
        (tracerSampler.UnmarshalText ts bs).1 = ConstantSampler ∨
          (tracerSampler.UnmarshalText ts bs).1 = ProbabilisticSampler) ∧
      ((tracerSampler.UnmarshalText ts bs).2 ≠ none →
        (tracerSampler.UnmarshalText ts bs).1 = ts)) ∧
    (cfg.sampler = ConstantSampler ∨ cfg.sampler = ProbabilisticSampler) ∧
    (cfg.tracer = "datadog" →
      InitGlobalTracer ext env name logger w =
        (Outcome.ret
          (Closer.datadogTracer (Tracer.datadog name
            (if cfg.hostPort ≠ "" then cfg.hostName ++ ":" ++ cfg.hostPort else cfg.hostName)
            (if cfg.sampler = ConstantSampler then
              dtracer.NewRateSampler
                (if cfg.samplerValue = "true" then Float64.one else Float64.zero)
            else
              dtracer.NewRateSampler (math.Max (math.Min
                (if (ext.ParseFloat cfg.samplerValue).2 = none then
                  (ext.ParseFloat cfg.samplerValue).1 else Float64.zero)
                Float64.one) Float64.zero))
            (cfg.tags.index environmentKey)), none),
          { globalTracer := Tracer.datadog name
              (if cfg.hostPort ≠ "" then cfg.hostName ++ ":" ++ cfg.hostPort else cfg.hostName)
              (if cfg.sampler = ConstantSampler then
                dtracer.NewRateSampler
                  (if cfg.samplerValue = "true" then Float64.one else Float64.zero)
              else
                dtracer.NewRateSampler (math.Max (math.Min
                  (if (ext.ParseFloat cfg.samplerValue).2 = none then
                    (ext.ParseFloat cfg.samplerValue).1 else Float64.zero)
                  Float64.one) Float64.zero))
              (cfg.tags.index environmentKey),
            events := w.events ++ [Event.datadogNew name
              (if cfg.hostPort ≠ "" then cfg.hostName ++ ":" ++ cfg.hostPort else cfg.hostName)
              (if cfg.sampler = ConstantSampler then
                dtracer.NewRateSampler
                  (if cfg.samplerValue = "true" then Float64.one else Float64.zero)
              else
                dtracer.NewRateSampler (math.Max (math.Min
                  (if (ext.ParseFloat cfg.samplerValue).2 = none then
                    (ext.ParseFloat cfg.samplerValue).1 else Float64.zero)
                  Float64.one) Float64.zero))
              (cfg.tags.index environmentKey)] })) ∧
    (cfg.tracer = "jaeger" → ∀ lg : Logger, logger = some lg →
      ext.NewUDPTransport
        (cfg.hostName ++ ":" ++ (if cfg.hostPort = "" then "6831" else cfg.hostPort)) (2 ^ 16)
        = none →
      (InitGlobalTracer ext env name logger w).2.events =
        w.events ++
          [Event.jaegerUDPTransport
            (cfg.hostName ++ ":" ++ (if cfg.hostPort = "" then "6831" else cfg.hostPort))
            (2 ^ 16),
           Event.jaegerNewTracer
            { serviceName := name,
              logger := lg.AddFields [("tracer", FieldValue.str "jaeger")],
              reporterAddr :=
                cfg.hostName ++ ":" ++ (if cfg.hostPort = "" then "6831" else cfg.hostPort),
              sampler :=
                (if cfg.sampler = ConstantSampler then
                  jaeger.NewConstSampler (decide (cfg.samplerValue = "true"))
                else
                  jaeger.Sampler.probabilistic (math.Max (math.Min
                    (if (ext.ParseFloat cfg.samplerValue).2 = none then
                      (ext.ParseFloat cfg.samplerValue).1 else Float64.zero)
                    Float64.one) Float64.zero)),
              envTag := cfg.tags.index environmentKey }]) := by
  have hU : ∀ ts bs : String,
      ((tracerSampler.UnmarshalText ts bs).2 = none →
        (tracerSampler.UnmarshalText ts bs).1 = ConstantSampler ∨
          (tracerSampler.UnmarshalText ts bs).1 = ProbabilisticSampler) ∧
      ((tracerSampler.UnmarshalText ts bs).2 ≠ none →
        (tracerSampler.UnmarshalText ts bs).1 = ts) := by
    intro ts bs
    unfold tracerSampler.UnmarshalText
    by_cases h : bs = ProbabilisticSampler ∨ bs = ConstantSampler
    · simp only [h, if_true]
      exact ⟨fun _ => h.symm, fun hne => absurd rfl hne⟩
    · simp [h]
  have hkind : cfg.sampler = ConstantSampler ∨ cfg.sampler = ProbabilisticSampler := by
    have hok : ∀ ts bs t : String, tracerSampler.UnmarshalText ts bs = (t, none) →
        t = ConstantSampler ∨ t = ProbabilisticSampler := by
      intro ts bs t h
      have h1 := (hU ts bs).1
      rw [h] at h1
      exact h1 rfl
    have herr : (getTracerConfig env).2 = none := by rw [hcfg]
    have hs : (getTracerConfig env).1.sampler = cfg.sampler := by rw [hcfg]
    rw [← hs]
    revert herr
    clear hs hcfg
    rcases hT : env "TRACER_SERVICE" with _ | svc <;>
    rcases hH : env "TRACER_HOST" with _ | h <;>
    rcases hS : env "TRACER_SAMPLER" with _ | sm <;>
    rcases hE : env "TRACER_ENVIRONMENT" with _ | e <;>
    simp [getTracerConfig, os.LookupEnv, hT, hH, hS, hE] <;>
    (repeat' split) <;> simp_all <;>
    exact hok _ _ _ (by assumption)
  have hpc : ProbabilisticSampler ≠ ConstantSampler := by decide
  have hdd : datadogTracer.getSampler ext.ParseFloat cfg.sampler cfg.samplerValue =
      (if cfg.sampler = ConstantSampler then
        dtracer.NewRateSampler
          (if cfg.samplerValue = "true" then Float64.one else Float64.zero)
      else
        dtracer.NewRateSampler (math.Max (math.Min
          (if (ext.ParseFloat cfg.samplerValue).2 = none then
            (ext.ParseFloat cfg.samplerValue).1 else Float64.zero)
          Float64.one) Float64.zero)) := by
    unfold datadogTracer.getSampler
    rcases hkind with hc | hp
    · by_cases hv : cfg.samplerValue = "true" <;> simp [hc, hv]
    · rw [hp]
      rcases hpf : ext.ParseFloat cfg.samplerValue with ⟨f, err⟩
      cases err <;> simp [hpc]
  have hjg : getJaegerSampler ext.ParseFloat cfg.sampler cfg.samplerValue =
      (if cfg.sampler = ConstantSampler then
        jaeger.NewConstSampler (decide (cfg.samplerValue = "true"))
      else
        jaeger.Sampler.probabilistic (math.Max (math.Min
          (if (ext.ParseFloat cfg.samplerValue).2 = none then
            (ext.ParseFloat cfg.samplerValue).1 else Float64.zero)
          Float64.one) Float64.zero)) := by
    unfold getJaegerSampler
    rcases hkind with hc | hp
    · simp [hc]
    · rw [hp]
      rcases hpf : ext.ParseFloat cfg.samplerValue with ⟨f, err⟩
      cases err <;> simp [hpc, clamp_accepted]
  refine ⟨hU, hkind, ?_, ?_⟩
  · intro ht
    rw [← hdd]
    simp [InitGlobalTracer, hcfg, ht, initDatadogTracer, datadogTracer.Init]
  · intro ht lg hlg hudp
    have h16 : (2 : Nat) ^ 16 = 65536 := by norm_num
    rw [h16] at hudp
    rw [← hjg]
    have hne : cfg.tracer ≠ "datadog" := by rw [ht]; decide
    by_cases hp : cfg.hostPort = ""
    · simp only [hp, if_true] at hudp ⊢
      simp [InitGlobalTracer, hcfg, ht, hlg, initJaegerTracer, hp, hudp]
      rcases hn : ext.NewTracer _ with ⟨t, cl, _ | e⟩ <;> simp
    · simp only [hp, if_false] at hudp ⊢
      simp [InitGlobalTracer, hcfg, ht, hlg, initJaegerTracer, hp, hudp]
      rcases hn : ext.NewTracer _ with ⟨t, cl, _ | e⟩ <;> simp

/-- Witness for C20: the constant sampler with value "true" under the datadog backend. -/
theorem getTracerConfig_sampler_kind_witness :
    (ConstantSampler = ConstantSampler ∨ ConstantSampler = ProbabilisticSampler) ∧
    InitGlobalTracer Externals.reachable
        (Env.ofList [("TRACER_SERVICE", "datadog"), ("TRACER_SAMPLER", "CONSTANT"),
          ("TRACER_SAMPLER_VALUE", "true")]) "svc" none World.initial =
      (Outcome.ret (Closer.datadogTracer (Tracer.datadog "svc" "localhost"
          (dtracer.NewRateSampler Float64.one) "undefined"), none),
        { globalTracer := Tracer.datadog "svc" "localhost"
            (dtracer.NewRateSampler Float64.one) "undefined",
          events := [Event.datadogNew "svc" "localhost"
            (dtracer.NewRateSampler Float64.one) "undefined"] }) :=
  ⟨(getTracerConfig_sampler_kind
      (Env.ofList [("TRACER_SERVICE", "datadog"), ("TRACER_SAMPLER", "CONSTANT"),
        ("TRACER_SAMPLER_VALUE", "true")])
      { serviceName := "", tracer := "datadog", hostName := "localhost", hostPort := "",
        sampler := ConstantSampler, samplerValue := "true", logger := none,
        tags := [("environment", "undefined")] }
      Externals.reachable "svc" none World.initial (by decide)).2.1,
    (getTracerConfig_sampler_kind
      (Env.ofList [("TRACER_SERVICE", "datadog"), ("TRACER_SAMPLER", "CONSTANT"),
        ("TRACER_SAMPLER_VALUE", "true")])
      { serviceName := "", tracer := "datadog", hostName := "localhost", hostPort := "",
        sampler := ConstantSampler, samplerValue := "true", logger := none,
        tags := [("environment", "undefined")] }
      Externals.reachable "svc" none World.initial (by decide)).2.2.1 (by decide)⟩

end Rest
